import Mathlib

set_option maxHeartbeats 1000000
set_option maxRecDepth 8192

namespace Spec2Proof

/-!
Verification development for the Rendering library's state-tracking core
(`src/RenderingContext/RenderingContext.cpp`, `src/Mesh/MeshDataStrategy.cpp`,
`src/Mesh/MeshVertexData.cpp`).  Each subsystem touched by the checked
properties is embedded shallowly: the C++ member functions become Lean
functions over explicit state records; functions that can raise C++
exceptions return `Except`; `WARN(...)` calls become returned warning lists.
-/

namespace RC

/-- Mirror of the `MaterialData` aggregate (`RenderingContext.cpp`, lines 85-91):
the `MaterialParameters` payload is treated as an opaque value, `enabled`
mirrors the `uint32_t enabled = true` member (with its default used by the
implicit conversion from `MaterialParameters`). -/
structure MaterialData where
  mat : Nat
  enabled : Bool
  deriving DecidableEq, Repr

/-- Mirror of `InternalData::feedbackBufferStatus_t`, a pair of a buffer
reference and a primitive mode (`RenderingContext.cpp`, line 150). -/
structure FeedbackStatus where
  buffer : Option Nat
  mode : Nat
  deriving DecidableEq, Repr

/-- Mirror of `Geometry::Rect_i` as used by the viewport state. -/
structure RectI where
  x : Int
  y : Int
  width : Int
  height : Int
  deriving DecidableEq, Repr

/-- Mirror of `Geometry::Vec4` as used by `FrameData::viewport`. -/
structure Vec4R where
  x : Int
  y : Int
  z : Int
  w : Int
  deriving DecidableEq, Repr

/-- Mirror of the `FrameData` aggregate (`RenderingContext.cpp`, lines 64-70);
matrices are opaque payloads, the push/pop machinery copies them wholesale. -/
structure FrameData where
  matrix_worldToCamera : Nat
  matrix_cameraToWorld : Nat
  matrix_cameraToClipping : Nat
  matrix_clippingToCamera : Nat
  viewport : Vec4R
  deriving DecidableEq, Repr

/-- The parts of the `ObjectData` aggregate (`RenderingContext.cpp`, lines
72-78) that the scoped stacks touch: the model-to-camera matrix and the point
parameters. -/
structure ObjectData where
  matrix_modelToCamera : Nat
  pointSize : Nat
  deriving DecidableEq, Repr

/-- The target `PipelineState` fields behind the scoped setters.  All
parameter aggregates (`BlendingParameters`, `CullFaceParameters`, ...) are
copied wholesale by the stacks, so they are embedded as opaque `Nat`
payloads; references become `Option Nat` (null or an object identity). -/
structure PipelineState where
  blending : Nat
  colorBuffer : Nat
  cullFace : Nat
  depthBuffer : Nat
  lineParams : Nat
  polygonMode : Nat
  polygonOffset : Nat
  scissor : Nat
  stencil : Nat
  fbo : Option Nat
  shader : Option Nat
  textures : List (Option Nat)
  viewport : RectI
  deriving DecidableEq, Repr

/-- The state view of `RenderingContext::InternalData` covered by the scoped
push/set/pop interface: the target pipeline state, one stack per category,
and the per-frame / per-object / material / feedback values that some
categories target.  The active pipeline state, the parameter cache and the
uniform registry are outside this view (they are only mutated by
`applyChanges`, which never touches any of the fields below). -/
structure RCState where
  target : PipelineState
  blendingStack : List Nat
  colorBufferStack : List Nat
  cullFaceStack : List Nat
  depthBufferStack : List Nat
  lineStack : List Nat
  polygonModeStack : List Nat
  polygonOffsetStack : List Nat
  scissorStack : List Nat
  stencilStack : List Nat
  fboStack : List (Option Nat)
  shaderStack : List (Option Nat)
  imageStacks : List (List Nat)
  boundImages : List Nat
  textureStacks : List (List (Option Nat))
  enabledTextures : List Bool
  pointStack : List Nat
  matrixStack : List Nat
  projectionStack : List Nat
  viewportStack : List RectI
  materialStack : List MaterialData
  activeMaterial : MaterialData
  frame : FrameData
  objectData : ObjectData
  feedbackStack : List FeedbackStatus
  activeFeedback : FeedbackStatus
  deriving DecidableEq, Repr

/-- `RenderingContext::setBlending`. -/
def setBlending (p : Nat) (s : RCState) : RCState :=
  { s with target := { s.target with blending := p } }

/-- `RenderingContext::pushBlending`. -/
def pushBlending (s : RCState) : RCState :=
  { s with blendingStack := s.target.blending :: s.blendingStack }

/-- `RenderingContext::popBlending` (lines 316-323). -/
def popBlending (s : RCState) : RCState × List String :=
  match s.blendingStack with
  | [] => (s, ["popBlending: Empty Blending-Stack"])
  | p :: rest => ({ setBlending p s with blendingStack := rest }, [])

/-- `RenderingContext::setColorBuffer`. -/
def setColorBuffer (p : Nat) (s : RCState) : RCState :=
  { s with target := { s.target with colorBuffer := p } }

/-- `RenderingContext::pushColorBuffer`. -/
def pushColorBuffer (s : RCState) : RCState :=
  { s with colorBufferStack := s.target.colorBuffer :: s.colorBufferStack }

/-- `RenderingContext::popColorBuffer`. -/
def popColorBuffer (s : RCState) : RCState × List String :=
  match s.colorBufferStack with
  | [] => (s, ["popColorBuffer: Empty ColorBuffer stack"])
  | p :: rest => ({ setColorBuffer p s with colorBufferStack := rest }, [])

/-- `RenderingContext::setCullFace`. -/
def setCullFace (p : Nat) (s : RCState) : RCState :=
  { s with target := { s.target with cullFace := p } }

/-- `RenderingContext::pushCullFace`. -/
def pushCullFace (s : RCState) : RCState :=
  { s with cullFaceStack := s.target.cullFace :: s.cullFaceStack }

/-- `RenderingContext::popCullFace` (lines 370-377). -/
def popCullFace (s : RCState) : RCState × List String :=
  match s.cullFaceStack with
  | [] => (s, ["popCullFace: Empty CullFace-Stack"])
  | p :: rest => ({ setCullFace p s with cullFaceStack := rest }, [])

/-- `RenderingContext::setDepthBuffer`. -/
def setDepthBuffer (p : Nat) (s : RCState) : RCState :=
  { s with target := { s.target with depthBuffer := p } }

/-- `RenderingContext::pushDepthBuffer`. -/
def pushDepthBuffer (s : RCState) : RCState :=
  { s with depthBufferStack := s.target.depthBuffer :: s.depthBufferStack }

/-- `RenderingContext::popDepthBuffer`. -/
def popDepthBuffer (s : RCState) : RCState × List String :=
  match s.depthBufferStack with
  | [] => (s, ["popDepthBuffer: Empty DepthBuffer stack"])
  | p :: rest => ({ setDepthBuffer p s with depthBufferStack := rest }, [])

/-- `RenderingContext::setLine`. -/
def setLine (p : Nat) (s : RCState) : RCState :=
  { s with target := { s.target with lineParams := p } }

/-- `RenderingContext::pushLine`. -/
def pushLine (s : RCState) : RCState :=
  { s with lineStack := s.target.lineParams :: s.lineStack }

/-- `RenderingContext::popLine`. -/
def popLine (s : RCState) : RCState × List String :=
  match s.lineStack with
  | [] => (s, ["popLine: Empty line parameters stack"])
  | p :: rest => ({ setLine p s with lineStack := rest }, [])

/-- `RenderingContext::setPolygonMode`. -/
def setPolygonMode (p : Nat) (s : RCState) : RCState :=
  { s with target := { s.target with polygonMode := p } }

/-- `RenderingContext::pushPolygonMode`. -/
def pushPolygonMode (s : RCState) : RCState :=
  { s with polygonModeStack := s.target.polygonMode :: s.polygonModeStack }

/-- `RenderingContext::popPolygonMode`. -/
def popPolygonMode (s : RCState) : RCState × List String :=
  match s.polygonModeStack with
  | [] => (s, ["popPolygonMode: Empty PolygonMode-Stack"])
  | p :: rest => ({ setPolygonMode p s with polygonModeStack := rest }, [])

/-- `RenderingContext::setPolygonOffset`. -/
def setPolygonOffset (p : Nat) (s : RCState) : RCState :=
  { s with target := { s.target with polygonOffset := p } }

/-- `RenderingContext::pushPolygonOffset`. -/
def pushPolygonOffset (s : RCState) : RCState :=
  { s with polygonOffsetStack := s.target.polygonOffset :: s.polygonOffsetStack }

/-- `RenderingContext::popPolygonOffset`. -/
def popPolygonOffset (s : RCState) : RCState × List String :=
  match s.polygonOffsetStack with
  | [] => (s, ["popPolygonOffset: Empty PolygonOffset stack"])
  | p :: rest => ({ setPolygonOffset p s with polygonOffsetStack := rest }, [])

/-- `RenderingContext::setScissor`. -/
def setScissor (p : Nat) (s : RCState) : RCState :=
  { s with target := { s.target with scissor := p } }

/-- `RenderingContext::pushScissor`. -/
def pushScissor (s : RCState) : RCState :=
  { s with scissorStack := s.target.scissor :: s.scissorStack }

/-- `RenderingContext::popScissor`. -/
def popScissor (s : RCState) : RCState × List String :=
  match s.scissorStack with
  | [] => (s, ["popScissor: Empty scissor parameters stack"])
  | p :: rest => ({ setScissor p s with scissorStack := rest }, [])

/-- `RenderingContext::setStencil`. -/
def setStencil (p : Nat) (s : RCState) : RCState :=
  { s with target := { s.target with stencil := p } }

/-- `RenderingContext::pushStencil`. -/
def pushStencil (s : RCState) : RCState :=
  { s with stencilStack := s.target.stencil :: s.stencilStack }

/-- `RenderingContext::popStencil`. -/
def popStencil (s : RCState) : RCState × List String :=
  match s.stencilStack with
  | [] => (s, ["popStencil: Empty stencil stack"])
  | p :: rest => ({ setStencil p s with stencilStack := rest }, [])

/-- `RenderingContext::setFBO`. -/
def setFBO (f : Option Nat) (s : RCState) : RCState :=
  { s with target := { s.target with fbo := f } }

/-- `RenderingContext::pushFBO`. -/
def pushFBO (s : RCState) : RCState :=
  { s with fboStack := s.target.fbo :: s.fboStack }

/-- `RenderingContext::popFBO`. -/
def popFBO (s : RCState) : RCState × List String :=
  match s.fboStack with
  | [] => (s, ["popFBO: Empty FBO-Stack"])
  | f :: rest => ({ setFBO f s with fboStack := rest }, [])

/-- `RenderingContext::setShader`. -/
def setShader (sh : Option Nat) (s : RCState) : RCState :=
  { s with target := { s.target with shader := sh } }

/-- `RenderingContext::pushShader`. -/
def pushShader (s : RCState) : RCState :=
  { s with shaderStack := s.target.shader :: s.shaderStack }

/-- `RenderingContext::popShader` (lines 734-740).  Note: the source restores
the top of `shaderStack` into the target but never removes it from the stack
(there is no `shaderStack.pop()` call, unlike every other category). -/
def popShader (s : RCState) : RCState × List String :=
  match s.shaderStack with
  | [] => (s, ["popShader: Empty Shader-Stack"])
  | p :: _ => (setShader p s, [])

/-- `RenderingContext::setPointParameters`. -/
def setPointParameters (p : Nat) (s : RCState) : RCState :=
  { s with objectData := { s.objectData with pointSize := p } }

/-- `RenderingContext::pushPointParameters`. -/
def pushPointParameters (s : RCState) : RCState :=
  { s with pointStack := s.objectData.pointSize :: s.pointStack }

/-- `RenderingContext::popPointParameters`. -/
def popPointParameters (s : RCState) : RCState × List String :=
  match s.pointStack with
  | [] => (s, ["popPoint: Empty point parameters stack"])
  | p :: rest => ({ setPointParameters p s with pointStack := rest }, [])

/-- `RenderingContext::setMatrix_modelToCamera`. -/
def setMatrixModelToCamera (m : Nat) (s : RCState) : RCState :=
  { s with objectData := { s.objectData with matrix_modelToCamera := m } }

/-- `RenderingContext::pushMatrix_modelToCamera`. -/
def pushMatrixModelToCamera (s : RCState) : RCState :=
  { s with matrixStack := s.objectData.matrix_modelToCamera :: s.matrixStack }

/-- `RenderingContext::popMatrix_modelToCamera`. -/
def popMatrixModelToCamera (s : RCState) : RCState × List String :=
  match s.matrixStack with
  | [] => (s, ["Cannot pop matrix. The stack is empty."])
  | m :: rest =>
    ({ s with objectData := { s.objectData with matrix_modelToCamera := m },
              matrixStack := rest }, [])

/-- `RenderingContext::setMatrix_cameraToClipping`: also recomputes the
inverse matrix.  The matrix inverse is computed by the external Geometry
library, so it is passed in as an opaque function `inv`. -/
def setMatrixCameraToClipping (inv : Nat → Nat) (m : Nat) (s : RCState) : RCState :=
  { s with frame := { s.frame with matrix_cameraToClipping := m,
                                   matrix_clippingToCamera := inv m } }

/-- `RenderingContext::pushMatrix_cameraToClipping`. -/
def pushMatrixCameraToClipping (s : RCState) : RCState :=
  { s with projectionStack := s.frame.matrix_cameraToClipping :: s.projectionStack }

/-- `RenderingContext::popMatrix_cameraToClipping` (lines 993-1000); note the
source assigns `matrix_cameraToClipping` directly, without recomputing the
inverse. -/
def popMatrixCameraToClipping (s : RCState) : RCState × List String :=
  match s.projectionStack with
  | [] => (s, ["Cannot pop projection matrix. The stack is empty."])
  | m :: rest =>
    ({ s with frame := { s.frame with matrix_cameraToClipping := m },
              projectionStack := rest }, [])

/-- `Geometry::Vec4(vp.getX(), vp.getY(), vp.getWidth(), vp.getHeight())`. -/
def rectToVec4 (r : RectI) : Vec4R := ⟨r.x, r.y, r.width, r.height⟩

/-- `RenderingContext::setViewport` (lines 1132-1135): sets the target
viewport and the derived `FrameData::viewport` vector. -/
def setViewport (vp : RectI) (s : RCState) : RCState :=
  { s with target := { s.target with viewport := vp },
           frame := { s.frame with viewport := rectToVec4 vp } }

/-- `RenderingContext::pushViewport`. -/
def pushViewport (s : RCState) : RCState :=
  { s with viewportStack := s.target.viewport :: s.viewportStack }

/-- `RenderingContext::popViewport`. -/
def popViewport (s : RCState) : RCState × List String :=
  match s.viewportStack with
  | [] => (s, ["Cannot pop viewport stack because it is empty. Ignoring call."])
  | vp :: rest => ({ setViewport vp s with viewportStack := rest }, [])

/-- `RenderingContext::setMaterial`: the C++ assignment converts
`MaterialParameters` to `MaterialData` through the converting constructor,
whose `enabled` member defaults to true. -/
def setMaterial (m : Nat) (s : RCState) : RCState :=
  { s with activeMaterial := { mat := m, enabled := true } }

/-- `RenderingContext::pushMaterial`. -/
def pushMaterial (s : RCState) : RCState :=
  { s with materialStack := s.activeMaterial :: s.materialStack }

/-- `RenderingContext::popMaterial` (lines 1077-1088).  Unlike the other
categories, the source pops the stack first and then installs the new stack
top into `activeMaterial` (or, when the stack has become empty, merely clears
the `enabled` flag of the current material). -/
def popMaterial (s : RCState) : RCState × List String :=
  match s.materialStack with
  | [] => (s, ["RenderingContext.popMaterial: stack empty, ignoring call"])
  | _ :: rest =>
    ({ s with materialStack := rest,
              activeMaterial := match rest with
                | [] => { s.activeMaterial with enabled := false }
                | m :: _ => m }, [])

/-- `RenderingContext::getTexture` (line 814): out-of-range units yield
`nullptr` instead of failing. -/
def getTexture (unit : Nat) (s : RCState) : Option Nat :=
  if unit < s.target.textures.length then s.target.textures.getD unit none else none

/-- `RenderingContext::setTexture` (lines 845-853): updates the target
pipeline texture only when it differs (the texture's `_prepareForBinding` is
an external side effect on the texture object), then records whether the unit
is enabled; `enabledTextures.at(unit)` raises `std::out_of_range` for an
invalid unit. -/
def setTexture (unit : Nat) (tex : Option Nat) (s : RCState) : Except String RCState := do
  let old := getTexture unit s
  let s1 := if tex ≠ old then
      { s with target := { s.target with textures := s.target.textures.set unit tex } }
    else s
  if unit < s1.enabledTextures.length then
    pure { s1 with enabledTextures := s1.enabledTextures.set unit tex.isSome }
  else
    throw "std::out_of_range"

/-- `RenderingContext::pushTexture` (line 822): `textureStacks.at(unit)`
raises `std::out_of_range` for an invalid unit. -/
def pushTexture (unit : Nat) (s : RCState) : Except String RCState :=
  if unit < s.textureStacks.length then
    pure { s with textureStacks :=
      s.textureStacks.set unit (getTexture unit s :: s.textureStacks.getD unit []) }
  else throw "std::out_of_range"

/-- `RenderingContext::popTexture` (lines 835-843). -/
def popTexture (unit : Nat) (s : RCState) : Except String (RCState × List String) :=
  if unit < s.textureStacks.length then
    match s.textureStacks.getD unit [] with
    | [] => pure (s, ["popTexture: Empty Texture-Stack"])
    | t :: rest => do
      let s1 ← setTexture unit t s
      pure ({ s1 with textureStacks := s1.textureStacks.set unit rest }, [])
  else throw "std::out_of_range"

/-- `RenderingContext::setBoundImage` (lines 466-511): `assertCorrectImageUnit`
throws for an invalid unit; the GL binding work is an external side effect.
The unit bound `MAX_BOUND_IMAGES` is the (fixed) length of the `boundImages`
array. -/
def setBoundImage (unit : Nat) (p : Nat) (s : RCState) : Except String RCState :=
  if unit < s.boundImages.length then
    pure { s with boundImages := s.boundImages.set unit p }
  else throw "RenderingContext: Invalid image unit."

/-- `RenderingContext::pushBoundImage` (lines 445-448). -/
def pushBoundImage (unit : Nat) (s : RCState) : Except String RCState :=
  if unit < s.boundImages.length then
    pure { s with imageStacks :=
      s.imageStacks.set unit (s.boundImages.getD unit 0 :: s.imageStacks.getD unit []) }
  else throw "RenderingContext: Invalid image unit."

/-- `RenderingContext::popBoundImage` (lines 454-463). -/
def popBoundImage (unit : Nat) (s : RCState) : Except String (RCState × List String) :=
  if unit < s.boundImages.length then
    match s.imageStacks.getD unit [] with
    | [] => pure (s, ["popBoundImage: Empty stack"])
    | p :: rest => do
      let s1 ← setBoundImage unit p s
      pure ({ s1 with imageStacks := s1.imageStacks.set unit rest }, [])
  else throw "RenderingContext: Invalid image unit."

/-- `RenderingContext::_startTransformFeedback`: the GL begin/end calls are
external; the recorded state change is the primitive mode.  (`applyChanges()`
at its head mutates only the active pipeline state, the parameter cache and
shader uniforms, none of which belong to this state view.) -/
def startTransformFeedback (mode : Nat) (s : RCState) : RCState :=
  { s with activeFeedback := { s.activeFeedback with mode := mode } }

/-- `RenderingContext::setTransformFeedbackBuffer` (lines 899-912). -/
def setTransformFeedbackBuffer (b : Option Nat) (s : RCState) : RCState :=
  let s1 := { s with activeFeedback := { s.activeFeedback with buffer := b } }
  startTransformFeedback s1.activeFeedback.mode s1

/-- `RenderingContext::pushTransformFeedbackBufferStatus`. -/
def pushTransformFeedbackBufferStatus (s : RCState) : RCState :=
  { s with feedbackStack := s.activeFeedback :: s.feedbackStack }

/-- `RenderingContext::popTransformFeedbackBufferStatus` (lines 887-895):
stops feedback, restores the stack top into the active status and restarts;
note the source reads `feedbackStack.top()` but never calls
`feedbackStack.pop()`. -/
def popTransformFeedbackBufferStatus (s : RCState) : RCState × List String :=
  match s.feedbackStack with
  | [] => (s, ["popTransformFeedbackBufferStatus: The stack is empty."])
  | top :: _ =>
    let s1 := startTransformFeedback 0 s
    let s2 := { s1 with activeFeedback := top }
    (startTransformFeedback top.mode s2, [])

end RC

namespace Lights

/-- A `LightParameters` descriptor viewed as its raw byte image (the registry
compares descriptors with `std::memcmp` over `sizeof(LightParameters)`, so
the byte list is the faithful carrier). -/
abbrev LightParams := List Nat

/-- `std::memcmp(&l1, &l2, size) < 0`: lexicographic byte comparison (all
descriptors have the same fixed size, so the lists compared are always of
equal length). -/
def memcmpLt : List Nat → List Nat → Bool
  | [], [] => false
  | [], _ :: _ => true
  | _ :: _, [] => false
  | a :: as, b :: bs => if a < b then true else if b < a then false else memcmpLt as bs

/-- The key-equivalence induced by the `LightCompare` strict order, as used by
`std::map::find`: neither key is less than the other. -/
def keyEquiv (a b : LightParams) : Bool := !memcmpLt a b && !memcmpLt b a

/-- Mirror of the `LightSet` aggregate (`RenderingContext.cpp`, lines 80-83):
a count and a fixed-size array of hardware ids (`std::array<uint32_t, 8>`). -/
structure LightSet where
  count : Nat
  lights : List Nat
  deriving DecidableEq, Repr

/-- The lights-related part of `RenderingContext::InternalData` (lines
140-143): the descriptor registry (`std::map` keyed by `LightCompare`), the
free hardware-id pool (`std::set<uint8_t>`, kept sorted ascending), the
`LightData` parameter-cache slot contents, and the active light set. -/
structure LightsState where
  registry : List (LightParams × Nat)
  freeIds : List Nat
  lightData : List (Nat × LightParams)
  activeSet : LightSet
  deriving DecidableEq, Repr

/-- `MAX_ENABLED_LIGHTS` (`RenderingContext.cpp`, line 62). -/
def MAX_ENABLED_LIGHTS : Nat := 8

/-- `lightRegistry.find(light)`: returns the mapped id of the first entry
whose key is `LightCompare`-equivalent to the probe. -/
def findRegistry : List (LightParams × Nat) → LightParams → Option Nat
  | [], _ => none
  | (k, v) :: rest, d => if keyEquiv k d then some v else findRegistry rest d

/-- `cache.setParameter(PARAMETER_LIGHTDATA, id, light)`.  Modelled from the
spec: `setParameter(name, index, record)` writes one record at a fixed index
(the `ParameterCache` sources are not part of this tree); the slot contents
are logged as an association list where the newest write at an index wins. -/
def setLightData (cache : List (Nat × LightParams)) (id : Nat) (d : LightParams) :
    List (Nat × LightParams) := (id, d) :: cache

/-- `RenderingContext::registerLight` (lines 946-955): takes the smallest
free id (`*freeLightIds.begin()` of the ordered set, i.e. the head of the
sorted pool), stores the descriptor in the `LightData` slot, and returns the
id; an empty pool warns and returns `std::numeric_limits<uint8_t>::max()`
= 255. -/
def registerLight (s : LightsState) (d : LightParams) : LightsState × Nat × List String :=
  match s.freeIds with
  | [] => (s, 255, ["Cannot register more lights; ignoring call."])
  | id :: rest =>
    ({ s with freeIds := rest, lightData := setLightData s.lightData id d }, id, [])

/-- The currently-active id list: entries `lights[0] .. lights[count-1]`. -/
def activeIds (ls : LightSet) : List Nat := ls.lights.take ls.count

/-- `RenderingContext::enableLight(uint8_t)` (lines 968-978): a linear scan
of the active entries returns early if the id is already active; a full set
warns; otherwise the id is stored at position `count`, which is then
incremented. -/
def enableLightId (s : LightsState) (id : Nat) : LightsState × List String :=
  if (activeIds s.activeSet).contains id then (s, [])
  else if MAX_ENABLED_LIGHTS ≤ s.activeSet.count then
    (s, ["Cannot enable more lights; ignoring call."])
  else
    ({ s with activeSet := { count := s.activeSet.count + 1,
                             lights := s.activeSet.lights.set s.activeSet.count id } }, [])

/-- `RenderingContext::enableLight(const LightParameters &)` (lines 933-944):
look up the descriptor; on a miss register it and record the returned id in
the registry; either way enable the id. -/
def enableLightD (s : LightsState) (d : LightParams) : LightsState × Nat × List String :=
  match findRegistry s.registry d with
  | some id =>
    let (s1, w) := enableLightId s id
    (s1, id, w)
  | none =>
    let (s1, id, w1) := registerLight s d
    let s2 := { s1 with registry := (d, id) :: s1.registry }
    let (s3, w2) := enableLightId s2 id
    (s3, id, w1 ++ w2)

/-- The scan position of `RenderingContext::disableLight`'s loop: the first
index of `id` among the active entries. -/
def findActiveIdx : List Nat → Nat → Option Nat
  | [], _ => none
  | x :: xs, id => if x = id then some 0 else (findActiveIdx xs id).map (· + 1)

/-- `RenderingContext::disableLight` (lines 980-989): scan the active
entries; when found, decrement the count and `std::swap` the found slot with
the (new) last slot; when absent, fall through silently. -/
def disableLight (s : LightsState) (id : Nat) : LightsState × List String :=
  match findActiveIdx (activeIds s.activeSet) id with
  | none => (s, [])
  | some pos =>
    let c := s.activeSet.count - 1
    let a := s.activeSet.lights.getD pos 0
    let b := s.activeSet.lights.getD c 0
    ({ s with activeSet := { count := c,
                             lights := (s.activeSet.lights.set pos b).set c a } }, [])

/-- The constructor's free-id initialization (`RenderingContext.cpp`, lines
188-191): ids `0 .. numeric_limits<uint8_t>::max() - 1`, i.e. `0 .. 254`,
inserted in ascending order. -/
def initFreeLightIds : List Nat := List.range 255

/-- Iterated registration of a list of descriptors (each call keeps only the
state). -/
def registerAll (ds : List LightParams) (s : LightsState) : LightsState :=
  ds.foldl (fun s d => (registerLight s d).1) s

/-- The lights state right after the constructor: empty registry, full free
pool, empty cache slot, empty active set (the `LightSet::lights` array is
value-initialized storage whose contents are irrelevant while `count = 0`). -/
def initLightsState : LightsState :=
  { registry := [], freeIds := initFreeLightIds, lightData := [],
    activeSet := { count := 0, lights := List.replicate 8 0 } }

/-- A concrete light descriptor (4 bytes) used to instantiate theorems. -/
def dWitness : LightParams := [1, 2, 3, 4]

/-- The lights state reached from the fresh context by enabling eight
distinct one-byte descriptors: the active light set is full (count = 8,
the `MAX_ENABLED_LIGHTS` capacity). -/
def fullLightsState : LightsState :=
  ((List.range 8).map (fun i => [i])).foldl (fun s d => (enableLightD s d).1) initLightsState

end Lights

namespace Draw

/-- `MAX_OBJECTDATA` (`RenderingContext.cpp`, line 57). -/
def MAX_OBJECTDATA : Nat := 512

/-- Modelled from the spec (§4.3 Parameter Cache; the `ParameterCache`
sources are not part of this tree): a slot has a fixed capacity, a cursor
for streamed appends, and a current ring-buffer index.  `appended` logs every
record appended so far. -/
structure CacheSlot where
  capacity : Nat
  cursor : Nat
  bufferIndex : Nat
  appended : List Nat
  deriving DecidableEq, Repr

/-- Modelled from the spec: `addParameter(name, record)` appends at the
slot's internal cursor and returns the assigned index; it never exceeds
capacity (a full slot stores nothing and the call fails by design, not by
exception). -/
def addParameter (slot : CacheSlot) (r : Nat) : CacheSlot × Nat :=
  if slot.cursor < slot.capacity then
    ({ slot with cursor := slot.cursor + 1, appended := slot.appended ++ [r] }, slot.cursor)
  else (slot, slot.cursor)

/-- Modelled from the spec: `swap(name)` advances to the next ring buffer and
resets the append cursor. -/
def swapSlot (slot : CacheSlot) : CacheSlot :=
  { slot with cursor := 0, bufferIndex := slot.bufferIndex + 1 }

/-- Device-visible events emitted by the draw/flush entry points, in source
order. -/
inductive Event where
  | applyCompleted
  | glDrawArrays (mode first count : Nat)
  | glDrawElements (mode typ first count : Nat)
  | glFlushCall
  | glFinishCall
  | slotSwap
  deriving DecidableEq, Repr

/-- The state view of the draw path: the `ObjectData` parameter-cache slot
(created with capacity `MAX_OBJECTDATA` and two ring buffers) and the current
per-object record. -/
structure DrawState where
  objSlot : CacheSlot
  activeObjectData : Nat
  deriving DecidableEq, Repr

/-- `applyChanges()` as seen by this view: it completes before returning and
emits its completion event; it never touches the object-data slot (the
`setParameter(PARAMETER_OBJECTDATA, ...)` line in the source is commented
out). -/
def applyChangesEv (s : DrawState) : DrawState × List Event := (s, [Event.applyCompleted])

/-- `RenderingContext::drawArrays` (lines 1174-1181): apply changes, append
one object-data record obtaining the draw id, issue the instanced draw, and
swap the ring buffer when the slot is about to be full. -/
def drawArrays (mode first count : Nat) (s : DrawState) : DrawState × List Event :=
  let (s1, t1) := applyChangesEv s
  let (slot1, drawId) := addParameter s1.objSlot s1.activeObjectData
  let s2 := { s1 with objSlot := slot1 }
  let t2 := t1 ++ [Event.glDrawArrays mode first count]
  if MAX_OBJECTDATA - 1 ≤ drawId then
    ({ s2 with objSlot := swapSlot s2.objSlot }, t2 ++ [Event.slotSwap])
  else (s2, t2)

/-- `RenderingContext::drawElements` (lines 1183-1190). -/
def drawElements (mode typ first count : Nat) (s : DrawState) : DrawState × List Event :=
  let (s1, t1) := applyChangesEv s
  let (slot1, drawId) := addParameter s1.objSlot s1.activeObjectData
  let s2 := { s1 with objSlot := slot1 }
  let t2 := t1 ++ [Event.glDrawElements mode typ first count]
  if MAX_OBJECTDATA - 1 ≤ drawId then
    ({ s2 with objSlot := swapSlot s2.objSlot }, t2 ++ [Event.slotSwap])
  else (s2, t2)

/-- `RenderingContext::flush` (lines 255-258): apply changes, then `glFlush`. -/
def flush (s : DrawState) : DrawState × List Event :=
  let (s1, t1) := applyChangesEv s
  (s1, t1 ++ [Event.glFlushCall])

/-- `RenderingContext::finish` (lines 261-264): apply changes, then
`glFinish`. -/
def finish (s : DrawState) : DrawState × List Event :=
  let (s1, t1) := applyChangesEv s
  (s1, t1 ++ [Event.glFinishCall])

end Draw

namespace ApplyEngine

/-- The device-facing operations invoked inside `applyChanges`, each of which
may raise a C++ exception (hence `Except`); the device/cache state they act
on is opaque.  `shaderValid` mirrors `activePipelineState.isShaderValid()`. -/
structure Device where
  diffApply : Nat → Except String Nat
  setFrameData : Nat → Except String Nat
  setMaterialData : Nat → Except String Nat
  setLightSetData : Nat → Except String Nat
  setTextureSetData : Nat → Except String Nat
  shaderValid : Bool
  bindCaches : Nat → Except String Nat
  syncGlobalUniforms : Nat → Except String Nat
  applyUniforms : Nat → Except String Nat

/-- Runs one step of the body: once a step has failed, later steps do not
execute (C++ unwinds to the catch), and the state reached so far is kept. -/
def stepRun (f : Nat → Except String Nat) : Nat × Option String → Nat × Option String
  | (g, some e) => (g, some e)
  | (g, none) =>
    match f g with
    | .ok g2 => (g2, none)
    | .error e => (g, some e)

/-- The try-block of `RenderingContext::applyChanges` (lines 273-300) in
source order: diff+apply the pipeline states, write the four per-frame cache
records, and, if a shader is bound, bind its interface blocks to the cache
slots, synchronize global uniforms and apply uniforms. -/
def runApplyBody (d : Device) (g : Nat) : Nat × Option String :=
  let r := stepRun d.diffApply (g, none)
  let r := stepRun d.setFrameData r
  let r := stepRun d.setMaterialData r
  let r := stepRun d.setLightSetData r
  let r := stepRun d.setTextureSetData r
  if d.shaderValid then
    let r := stepRun d.bindCaches r
    let r := stepRun d.syncGlobalUniforms r
    stepRun d.applyUniforms r
  else r

/-- The warning actually logged by the catch handler. -/
def applyWarnMsg (e : String) : String :=
  "Problem detected while setting rendering internalData: " ++ e

/-- `RenderingContext::applyChanges` (lines 272-305): the whole body runs
inside `try { ... } catch(const std::exception & e) { WARN(...); }`, so an
error from any nested operation is converted into a logged warning and a
normal return with whatever partial state the body reached. -/
def applyChanges (d : Device) (g : Nat) : Except String (Nat × List String) :=
  match runApplyBody d g with
  | (g2, none) => .ok (g2, [])
  | (g2, some e) => .ok (g2, [applyWarnMsg e])

/-- A device whose material-record write fails, used as a concrete witness
input. -/
def devBoom : Device :=
  { diffApply := fun g => .ok (g + 1)
    setFrameData := fun g => .ok (g + 1)
    setMaterialData := fun _ => .error "boom"
    setLightSetData := fun g => .ok (g + 1)
    setTextureSetData := fun g => .ok (g + 1)
    shaderValid := true
    bindCaches := fun g => .ok (g + 1)
    syncGlobalUniforms := fun g => .ok (g + 1)
    applyUniforms := fun g => .ok (g + 1) }

end ApplyEngine

namespace MeshRes

/-- A mesh geometry record (`MeshVertexData`, and the analogous
`MeshIndexData`): local byte-buffer size, element count, device buffer
validity (`bufferObject.isValid()`), and the `dataChanged` flag. -/
structure GeomData where
  dataSize : Nat
  count : Nat
  bufferValid : Bool
  changed : Bool
  deriving DecidableEq, Repr

/-- `MeshVertexData::isUploaded` (`MeshVertexData.h`, line 92). -/
def isUploaded (g : GeomData) : Bool := g.bufferValid

/-- `MeshVertexData::empty`: `vertexCount == 0`. -/
def emptyGeom (g : GeomData) : Bool := g.count == 0

/-- `MeshVertexData::hasLocalData`: `!binaryData.empty()`. -/
def hasLocalData (g : GeomData) : Bool := g.dataSize != 0

/-- `MeshVertexData::hasChanged`. -/
def hasChanged (g : GeomData) : Bool := g.changed

/-- `MeshVertexData::removeGlBuffer`: destroys the device buffer. -/
def removeGlBuffer (g : GeomData) : GeomData := { g with bufferValid := false }

/-- `MeshVertexData::releaseLocalData`: frees the host copy. -/
def releaseLocalData (g : GeomData) : GeomData := { g with dataSize := 0 }

/-- `MeshVertexData::upload(usageHint)` (`MeshVertexData.cpp`, lines
139-157): no-op returning false on empty geometry; otherwise any existing
buffer is destroyed and the data uploaded; `devOk` models whether the device
upload succeeds (on failure the exception is caught, the buffer removed and
false returned). -/
def uploadGeom (devOk : Bool) (g : GeomData) : GeomData × Bool :=
  if g.count = 0 ∨ g.dataSize = 0 then (g, false)
  else if devOk then ({ g with bufferValid := true, changed := false }, true)
  else ({ g with bufferValid := false }, false)

/-- `SimpleMeshDataStrategy` policy flag bits (`MeshDataStrategy.h`). -/
structure Flags where
  debugOutput : Bool
  preserveLocalData : Bool
  dynamicVertices : Bool
  clientStorage : Bool
  deriving DecidableEq, Repr

/-- A mesh's two geometry records.  The `MeshIndexData` record (its header is
not part of this tree) follows the same geometry-record shape — modelled from
the spec, §3 "Mesh geometry record (vertex or index data)". -/
structure MeshGeom where
  vd : GeomData
  indexData : GeomData
  deriving DecidableEq, Repr

/-- One half of `SimpleMeshDataStrategy::prepare` (`MeshDataStrategy.cpp`,
lines 124-151), applied to one geometry record: destroy a leftover buffer of
cleared geometry, else upload new/changed data (the usage hint chosen from
the flags only affects the device allocation), then release local data
unless `PRESERVE_LOCAL_DATA` is set. -/
def prepareGeom (preserve devOk : Bool) (g : GeomData) : GeomData :=
  let g1 := if g.count = 0 ∧ g.bufferValid then removeGlBuffer g
    else if g.count ≠ 0 ∧ (g.changed ∨ ¬g.bufferValid) then (uploadGeom devOk g).1
    else g
  if ¬preserve ∧ g1.bufferValid ∧ g1.dataSize ≠ 0 then releaseLocalData g1 else g1

/-- `SimpleMeshDataStrategy::prepare`: the index-data block runs first, then
the vertex-data block, each with the same flag logic. -/
def prepare (f : Flags) (devOkIdx devOkVtx : Bool) (m : MeshGeom) : MeshGeom :=
  { m with indexData := prepareGeom f.preserveLocalData devOkIdx m.indexData,
           vd := prepareGeom f.preserveLocalData devOkVtx m.vd }

end MeshRes

namespace BBox

/-- Mirror of `Geometry::Box(minX, maxX, minY, maxY, minZ, maxZ)`.
Coordinates are modelled as exact rationals: `updateBoundingBox` only
compares and copies coordinate values, so on finite float inputs the
embedding is exact. -/
structure Box where
  minX : ℚ
  maxX : ℚ
  minY : ℚ
  maxY : ℚ
  minZ : ℚ
  maxZ : ℚ
  deriving DecidableEq, Repr

/-- `Geometry::Box()` default (external Geometry library); its exact value is
irrelevant to the checked properties. -/
def defaultBox : Box := ⟨0, 0, 0, 0, 0, 0⟩

/-- The vertex-data view used by `MeshVertexData::updateBoundingBox`: the
per-vertex position values delivered by the `FloatAttributeAccessor`
(`verts.length` is the vertex count, each entry holding the attribute's
`getNumValues()` components) and the stored bounding box. -/
structure MeshVD where
  verts : List (List ℚ)
  numValues : Nat
  bb : Box
  deriving DecidableEq, Repr

/-- `std::numeric_limits<float>::max()` as an exact rational (the literal is
2^128 - 2^104; see `fltMax_eq_pow`). -/
def fltMax : ℚ := 340282346638528859811704183484516925440

/-- `std::numeric_limits<float>::lowest()`. -/
def fltLowest : ℚ := -fltMax

/-- The loop body's minimum update: `if (p[dim] < min[dim]) min[dim] = p[dim]`. -/
def updMin (acc x : ℚ) : ℚ := if x < acc then x else acc

/-- The loop body's maximum update: `if (p[dim] > max[dim]) max[dim] = p[dim]`. -/
def updMax (acc x : ℚ) : ℚ := if acc < x then x else acc

/-- The vertex loop of `updateBoundingBox` (lines 114-124), updating all
dimensions of the running minima and maxima for each vertex in turn. -/
def minMaxFold : List (List ℚ) → List ℚ × List ℚ → List ℚ × List ℚ
  | [], mm => mm
  | v :: vs, (mins, maxs) =>
    minMaxFold vs (List.zipWith updMin mins v, List.zipWith updMax maxs v)

/-- `MeshVertexData::updateBoundingBox` (`MeshVertexData.cpp`, lines 95-133). -/
def updateBoundingBox (m : MeshVD) : MeshVD × List String :=
  if m.verts.length = 0 then ({ m with bb := defaultBox }, [])
  else if m.numValues < 1 then (m, ["Vertex component count is zero."])
  else
    let init : List ℚ × List ℚ :=
      (List.replicate m.numValues fltMax, List.replicate m.numValues fltLowest)
    let mm := minMaxFold m.verts init
    let box : Box :=
      if m.numValues = 1 then ⟨mm.1.getD 0 0, mm.2.getD 0 0, 0, 0, 0, 0⟩
      else if m.numValues = 2 then
        ⟨mm.1.getD 0 0, mm.2.getD 0 0, mm.1.getD 1 0, mm.2.getD 1 0, 0, 0⟩
      else
        ⟨mm.1.getD 0 0, mm.2.getD 0 0, mm.1.getD 1 0, mm.2.getD 1 0,
         mm.1.getD 2 0, mm.2.getD 2 0⟩
    ({ m with bb := box }, [])

/-- The spec's example mesh: 3 position-only vertices at (0,0,0), (1,0,0),
(0,1,0). -/
def exampleMesh : MeshVD :=
  { verts := [[0, 0, 0], [1, 0, 0], [0, 1, 0]], numValues := 3, bb := defaultBox }

/-- The values of one coordinate dimension across all vertices. -/
def col (i : Nat) (verts : List (List ℚ)) : List ℚ := verts.map (fun v => v.getD i 0)

/-- `a` is the minimum of the (nonempty) value list `l`. -/
def isMin (a : ℚ) (l : List ℚ) : Prop := a ∈ l ∧ ∀ x ∈ l, a ≤ x

/-- `a` is the maximum of the (nonempty) value list `l`. -/
def isMax (a : ℚ) (l : List ℚ) : Prop := a ∈ l ∧ ∀ x ∈ l, x ≤ a

end BBox

namespace RC

/-- A small concrete context state (two texture units, two image units, all
stacks empty) used to instantiate the universally quantified theorems. -/
def rcBase : RCState :=
  { target := { blending := 0, colorBuffer := 0, cullFace := 0, depthBuffer := 0,
                lineParams := 0, polygonMode := 0, polygonOffset := 0, scissor := 0,
                stencil := 0, fbo := none, shader := none, textures := [none, none],
                viewport := ⟨0, 0, 0, 0⟩ }
    blendingStack := []
    colorBufferStack := []
    cullFaceStack := []
    depthBufferStack := []
    lineStack := []
    polygonModeStack := []
    polygonOffsetStack := []
    scissorStack := []
    stencilStack := []
    fboStack := []
    shaderStack := []
    imageStacks := [[], []]
    boundImages := [0, 0]
    textureStacks := [[], []]
    enabledTextures := [false, false]
    pointStack := []
    matrixStack := []
    projectionStack := []
    viewportStack := []
    materialStack := []
    activeMaterial := ⟨0, false⟩
    frame := ⟨0, 0, 0, 0, ⟨0, 0, 0, 0⟩⟩
    objectData := ⟨0, 0⟩
    feedbackStack := [], activeFeedback := ⟨none, 0⟩ }

/-- State with a pushed shader (7) and a different target shader (1), plus a
pushed cull-face value, exhibiting `popShader`'s missing stack removal. -/
def rcShaderPushed : RCState :=
  { rcBase with target := { rcBase.target with shader := some 1 },
                shaderStack := [some 7], cullFaceStack := [3] }

/-- State whose material stack is empty while a material (payload 1) is
enabled, exhibiting `popMaterial`'s non-restoring semantics. -/
def rcMaterialOn : RCState :=
  { rcBase with activeMaterial := ⟨1, true⟩ }

end RC

/-! ## Theorems -/

section ListHelpers

/-- Writing back the value already stored at an in-range index is the
identity. -/
theorem listSet_getD_self {α : Type} :
    ∀ (l : List α) (n : Nat) (d : α), n < l.length → l.set n (l.getD n d) = l
  | [], n, d, h => by simp at h
  | a :: l, 0, d, h => by simp
  | a :: l, n + 1, d, h => by
    rw [List.getD_cons_succ, List.set_cons_succ, listSet_getD_self l n d (by simpa using h)]

/-- Reading back a freshly written in-range index yields the written value. -/
theorem listGetD_set_self {α : Type} :
    ∀ (l : List α) (n : Nat) (x d : α), n < l.length → (l.set n x).getD n d = x
  | [], n, x, d, h => by simp at h
  | a :: l, 0, x, d, h => by simp
  | a :: l, n + 1, x, d, h => by
    rw [List.set_cons_succ, List.getD_cons_succ]
    exact listGetD_set_self l n x d (by simpa using h)

/-- Writing back the element already stored at an in-range index is the
identity. -/
theorem listSet_getElem_self {α : Type} (l : List α) (n : Nat) (h : n < l.length) :
    l.set n l[n] = l := by
  have := listSet_getD_self l n l[n] h
  rwa [List.getD_eq_getElem l _ h] at this

/-- Setting at the cursor position and taking one more element appends the
written element to the previously taken ones. -/
theorem listTake_set_concat {α : Type} :
    ∀ (l : List α) (c : Nat) (x : α), c < l.length →
      (l.set c x).take (c + 1) = l.take c ++ [x]
  | [], c, x, h => by simp at h
  | a :: l, 0, x, h => by simp
  | a :: l, c + 1, x, h => by
    simp only [List.set_cons_succ, List.take_succ_cons, List.cons_append, List.cons.injEq,
      true_and]
    exact listTake_set_concat l c x (by simpa using h)

/-- Taking up to `n` elements ignores a write at an index at or past `n`. -/
theorem listTake_set_of_le {α : Type} :
    ∀ (l : List α) (i : Nat) (x : α) (n : Nat), n ≤ i → (l.set i x).take n = l.take n
  | [], i, x, n, h => by simp
  | a :: l, i, x, 0, h => by simp
  | a :: l, 0, x, n + 1, h => by omega
  | a :: l, i + 1, x, n + 1, h => by
    simp only [List.set_cons_succ, List.take_succ_cons, List.cons.injEq, true_and]
    exact listTake_set_of_le l i x n (by omega)

/-- A write strictly below the taken length commutes with `take`. -/
theorem listTake_set_lt {α : Type} :
    ∀ (l : List α) (i : Nat) (x : α) (n : Nat), i < n →
      (l.set i x).take n = (l.take n).set i x
  | [], i, x, n, h => by simp
  | a :: l, 0, x, n + 1, h => by simp
  | a :: l, i + 1, x, n + 1, h => by
    simp only [List.set_cons_succ, List.take_succ_cons, List.cons.injEq, true_and]
    exact listTake_set_lt l i x n (by omega)
  | a :: l, i + 1, x, 0, h => by omega

/-- `getD` below the taken length reads through the `take`. -/
theorem listGetD_take {α : Type} :
    ∀ (l : List α) (n p : Nat) (d : α), p < n → (l.take n).getD p d = l.getD p d
  | [], n, p, d, h => by simp
  | a :: l, n + 1, 0, d, h => by simp
  | a :: l, n + 1, p + 1, d, h => by
    simp only [List.take_succ_cons, List.getD_cons_succ]
    exact listGetD_take l n p d (by omega)
  | a :: l, 0, p, d, h => by omega

/-- Reading at the length of the left part of an append-cons yields the
middle element. -/
theorem listGetD_append_length {α : Type} :
    ∀ (X : List α) (y : α) (Y : List α) (d : α), (X ++ y :: Y).getD X.length d = y
  | [], y, Y, d => by simp
  | x :: X, y, Y, d => by
    simp only [List.cons_append, List.length_cons, List.getD_cons_succ]
    exact listGetD_append_length X y Y d

/-- Writing at the length of the left part of an append-cons replaces the
middle element. -/
theorem listSet_append_length {α : Type} :
    ∀ (X : List α) (y : α) (Y : List α) (b : α), (X ++ y :: Y).set X.length b = X ++ b :: Y
  | [], y, Y, b => by simp
  | x :: X, y, Y, b => by
    simp only [List.cons_append, List.length_cons, List.set_cons_succ, List.cons.injEq,
      true_and]
    exact listSet_append_length X y Y b

end ListHelpers

namespace RC

/-- C3: for every state category, `pop` on an empty stack reports a warning,
leaves the whole context state (in particular the category's target value)
unchanged, leaves the stack empty, and never throws (the unit-indexed pops
return normally for every valid unit). -/
theorem c3_pop_empty_stack_is_reported_noop (st : RCState) (unit : Nat)
    (hb : st.blendingStack = [])
    (hcb : st.colorBufferStack = [])
    (hcf : st.cullFaceStack = [])
    (hdb : st.depthBufferStack = [])
    (hln : st.lineStack = [])
    (hpm : st.polygonModeStack = [])
    (hpo : st.polygonOffsetStack = [])
    (hsc : st.scissorStack = [])
    (hst : st.stencilStack = [])
    (hfb : st.fboStack = [])
    (hsh : st.shaderStack = [])
    (hpt : st.pointStack = [])
    (hmx : st.matrixStack = [])
    (hpj : st.projectionStack = [])
    (hvw : st.viewportStack = [])
    (hmt : st.materialStack = [])
    (hfd : st.feedbackStack = [])
    (himg : unit < st.boundImages.length)
    (hieq : st.imageStacks.getD unit [] = [])
    (htex : unit < st.textureStacks.length)
    (hteq : st.textureStacks.getD unit [] = []) :
    popBlending st = (st, ["popBlending: Empty Blending-Stack"])
    ∧ popColorBuffer st = (st, ["popColorBuffer: Empty ColorBuffer stack"])
    ∧ popCullFace st = (st, ["popCullFace: Empty CullFace-Stack"])
    ∧ popDepthBuffer st = (st, ["popDepthBuffer: Empty DepthBuffer stack"])
    ∧ popLine st = (st, ["popLine: Empty line parameters stack"])
    ∧ popPolygonMode st = (st, ["popPolygonMode: Empty PolygonMode-Stack"])
    ∧ popPolygonOffset st = (st, ["popPolygonOffset: Empty PolygonOffset stack"])
    ∧ popScissor st = (st, ["popScissor: Empty scissor parameters stack"])
    ∧ popStencil st = (st, ["popStencil: Empty stencil stack"])
    ∧ popFBO st = (st, ["popFBO: Empty FBO-Stack"])
    ∧ popShader st = (st, ["popShader: Empty Shader-Stack"])
    ∧ popPointParameters st = (st, ["popPoint: Empty point parameters stack"])
    ∧ popMatrixModelToCamera st = (st, ["Cannot pop matrix. The stack is empty."])
    ∧ popMatrixCameraToClipping st = (st, ["Cannot pop projection matrix. The stack is empty."])
    ∧ popViewport st = (st, ["Cannot pop viewport stack because it is empty. Ignoring call."])
    ∧ popMaterial st = (st, ["RenderingContext.popMaterial: stack empty, ignoring call"])
    ∧ popTransformFeedbackBufferStatus st
        = (st, ["popTransformFeedbackBufferStatus: The stack is empty."])
    ∧ popBoundImage unit st = .ok (st, ["popBoundImage: Empty stack"])
    ∧ popTexture unit st = .ok (st, ["popTexture: Empty Texture-Stack"]) := by
  refine ⟨?_, ?_, ?_, ?_, ?_, ?_, ?_, ?_, ?_, ?_, ?_, ?_, ?_, ?_, ?_, ?_, ?_, ?_, ?_⟩
  · simp [popBlending, hb]
  · simp [popColorBuffer, hcb]
  · simp [popCullFace, hcf]
  · simp [popDepthBuffer, hdb]
  · simp [popLine, hln]
  · simp [popPolygonMode, hpm]
  · simp [popPolygonOffset, hpo]
  · simp [popScissor, hsc]
  · simp [popStencil, hst]
  · simp [popFBO, hfb]
  · simp [popShader, hsh]
  · simp [popPointParameters, hpt]
  · simp [popMatrixModelToCamera, hmx]
  · simp [popMatrixCameraToClipping, hpj]
  · simp [popViewport, hvw]
  · simp [popMaterial, hmt]
  · simp [popTransformFeedbackBufferStatus, hfd]
  · unfold popBoundImage
    rw [if_pos himg, hieq]
    rfl
  · unfold popTexture
    rw [if_pos htex, hteq]
    rfl

/-- Witness for C3 at the concrete empty context, unit 0. -/
theorem c3_pop_empty_stack_is_reported_noop_witness :
    popBlending rcBase = (rcBase, ["popBlending: Empty Blending-Stack"])
    ∧ popTexture 0 rcBase = .ok (rcBase, ["popTexture: Empty Texture-Stack"]) :=
  ⟨(c3_pop_empty_stack_is_reported_noop rcBase 0 rfl rfl rfl rfl rfl rfl rfl rfl rfl rfl
      rfl rfl rfl rfl rfl rfl rfl (by decide) rfl (by decide) rfl).1,
   (c3_pop_empty_stack_is_reported_noop rcBase 0 rfl rfl rfl rfl rfl rfl rfl rfl rfl rfl
      rfl rfl rfl rfl rfl rfl rfl (by decide) rfl (by decide) rfl).2.2.2.2.2.2.2.2.2.2.2.2.2.2.2.2.2.2⟩

/-- The texture round trip: push, set, pop on a valid unit restores the bound
texture (and every other category); only the derived `enabledTextures` entry
is recomputed from the restored binding. -/
theorem texture_push_set_pop (st : RCState) (tex : Option Nat) (unit : Nat)
    (htex : unit < st.textureStacks.length)
    (httex : st.target.textures.length = st.textureStacks.length)
    (hen : st.enabledTextures.length = st.textureStacks.length) :
    (pushTexture unit st >>= setTexture unit tex >>= popTexture unit)
      = .ok ({ st with enabledTextures :=
                st.enabledTextures.set unit (getTexture unit st).isSome }, []) := by
  have hTX : unit < st.target.textures.length := by rw [httex]; exact htex
  have hEN : unit < st.enabledTextures.length := by rw [hen]; exact htex
  obtain ⟨tg, bs, cbs, cfs, dbs, lns, pms, pfs, scs, sns, fbs, shs, ims, bim, ts, en, pts, mxs, pjs, vps, mts, am, fr, od, fds, af⟩ := st
  obtain ⟨b, cb, cf, db, lp, pm, po, sc, sn, fb, sh, tx, vp⟩ := tg
  dsimp only at htex httex hen hTX hEN
  simp only [pushTexture, setTexture, popTexture, getTexture]
  simp only [dif_pos, if_pos htex, if_pos hTX, if_pos hEN, pure_bind]
  by_cases htv : tex = tx.getD unit none
  · subst htv
    simp [setTexture, getTexture, popTexture, List.length_set, htex, hTX, hEN,
      listGetD_set_self, listSet_getD_self, listSet_getElem_self, List.set_set]
    rfl
  · rw [List.getD_eq_getElem tx none hTX] at htv
    simp [setTexture, getTexture, popTexture, List.length_set, htex, hTX, hEN, htv,
      Ne.symm htv, listGetD_set_self, listSet_getD_self, listSet_getElem_self, List.set_set]
    rfl

/-- The bound-image round trip: push, set, pop on a valid unit restores the
whole context state exactly. -/
theorem image_push_set_pop (st : RCState) (v : Nat) (unit : Nat)
    (himg : unit < st.boundImages.length)
    (hist : st.imageStacks.length = st.boundImages.length) :
    (pushBoundImage unit st >>= setBoundImage unit v >>= popBoundImage unit)
      = .ok (st, []) := by
  have hIS : unit < st.imageStacks.length := by rw [hist]; exact himg
  obtain ⟨tg, bs, cbs, cfs, dbs, lns, pms, pfs, scs, sns, fbs, shs, ims, bim, ts, en, pts, mxs, pjs, vps, mts, am, fr, od, fds, af⟩ := st
  dsimp only at himg hist hIS
  simp only [pushBoundImage, if_pos himg, pure_bind]
  simp [setBoundImage, popBoundImage, List.length_set, himg, hIS,
    listGetD_set_self, listSet_getD_self, listSet_getElem_self, List.set_set]
  rfl

/-- C1 (amended): for every state category except material, the sequence
`push(C); set(C, v); pop(C)` leaves the target value of C equal to its value
immediately before the push, and the sequence touches no other category's
target or stack (for most categories the whole state is restored exactly;
`popShader` and `popTransformFeedbackBufferStatus` additionally leave the
pushed entry on their stack, and the viewport/projection sequences refresh
the derived `FrameData` fields from the restored targets).  For the material
category the pre-push value is NOT restored: `popMaterial` discards the
pushed entry and installs the element beneath it, or, when the stack becomes
empty, keeps the newly set material with its `enabled` flag cleared. -/
theorem c1_push_set_pop_per_category (st : RCState) (v : Nat)
    (tex shv fbo2 : Option Nat) (fbuf : Option Nat) (vp : RectI)
    (inv : Nat → Nat) (unit : Nat)
    (htex : unit < st.textureStacks.length)
    (httex : st.target.textures.length = st.textureStacks.length)
    (hen : st.enabledTextures.length = st.textureStacks.length)
    (himg : unit < st.boundImages.length)
    (hist : st.imageStacks.length = st.boundImages.length) :
    (pushTexture unit st >>= setTexture unit tex >>= popTexture unit)
      = .ok ({ st with enabledTextures :=
                st.enabledTextures.set unit (getTexture unit st).isSome }, [])
    ∧ (pushBoundImage unit st >>= setBoundImage unit v >>= popBoundImage unit)
      = .ok (st, [])
    ∧ popBlending (setBlending v (pushBlending st)) = (st, [])
    ∧ popColorBuffer (setColorBuffer v (pushColorBuffer st)) = (st, [])
    ∧ popCullFace (setCullFace v (pushCullFace st)) = (st, [])
    ∧ popDepthBuffer (setDepthBuffer v (pushDepthBuffer st)) = (st, [])
    ∧ popLine (setLine v (pushLine st)) = (st, [])
    ∧ popPolygonMode (setPolygonMode v (pushPolygonMode st)) = (st, [])
    ∧ popPolygonOffset (setPolygonOffset v (pushPolygonOffset st)) = (st, [])
    ∧ popScissor (setScissor v (pushScissor st)) = (st, [])
    ∧ popStencil (setStencil v (pushStencil st)) = (st, [])
    ∧ popFBO (setFBO fbo2 (pushFBO st)) = (st, [])
    ∧ popPointParameters (setPointParameters v (pushPointParameters st)) = (st, [])
    ∧ popMatrixModelToCamera (setMatrixModelToCamera v (pushMatrixModelToCamera st))
        = (st, [])
    ∧ popShader (setShader shv (pushShader st))
        = ({ st with shaderStack := st.target.shader :: st.shaderStack }, [])
    ∧ popTransformFeedbackBufferStatus
        (setTransformFeedbackBuffer fbuf (pushTransformFeedbackBufferStatus st))
        = ({ st with feedbackStack := st.activeFeedback :: st.feedbackStack }, [])
    ∧ popMatrixCameraToClipping
        (setMatrixCameraToClipping inv v (pushMatrixCameraToClipping st))
        = ({ st with frame := { st.frame with matrix_clippingToCamera := inv v } }, [])
    ∧ popViewport (setViewport vp (pushViewport st))
        = ({ st with frame := { st.frame with viewport := rectToVec4 st.target.viewport } }, [])
    ∧ popMaterial (setMaterial v (pushMaterial st))
        = ({ st with activeMaterial := match st.materialStack with
              | [] => ⟨v, false⟩
              | m :: _ => m }, []) := by
  refine ⟨texture_push_set_pop st tex unit htex httex hen,
    image_push_set_pop st v unit himg hist,
    rfl, rfl, rfl, rfl, rfl, rfl, rfl, rfl, rfl, rfl, rfl, rfl, rfl, rfl, rfl, rfl, ?_⟩
  cases hm : st.materialStack <;> simp [popMaterial, setMaterial, pushMaterial, hm]

/-- Witness for C1 at the concrete base context (unit 0, fresh values). -/
theorem c1_push_set_pop_per_category_witness :
    (pushTexture 0 rcBase >>= setTexture 0 (some 5) >>= popTexture 0)
      = .ok ({ rcBase with enabledTextures :=
                rcBase.enabledTextures.set 0 (getTexture 0 rcBase).isSome }, []) :=
  (c1_push_set_pop_per_category rcBase 1 (some 5) (some 2) (some 3) (some 4)
    ⟨1, 2, 3, 4⟩ (fun m => m) 0 (by decide) (by decide) (by decide) (by decide)
    (by decide)).1

/-- C1 counterexample: at a context with an enabled material (payload 1) and
an empty material stack, `push(material); set(material, 2); pop(material)`
leaves the target material value at 2, not at its pre-push value 1 — the
claim fails for the material category. -/
theorem c1_material_counterexample :
    rcMaterialOn.activeMaterial.mat = 1
    ∧ (popMaterial (setMaterial 2 (pushMaterial rcMaterialOn))).1.activeMaterial.mat = 2 := by
  decide

/-- C4 (code bug): evaluated at a state whose shader stack holds one element,
`popShader` restores the stack top (7) into the target shader but leaves the
stack unchanged — its size does not decrease by one as the claim requires —
while `popCullFace` at the same state does remove its top element. -/
theorem c4_popShader_does_not_remove_top :
    (popShader rcShaderPushed).1.target.shader = some 7
    ∧ (popShader rcShaderPushed).1.shaderStack = [some 7]
    ∧ rcShaderPushed.shaderStack = [some 7]
    ∧ (popShader rcShaderPushed).1.shaderStack.length = rcShaderPushed.shaderStack.length
    ∧ (popCullFace rcShaderPushed).1.cullFaceStack.length
        = rcShaderPushed.cullFaceStack.length - 1 := by
  decide

end RC

namespace Lights

/-- A byte image is never `memcmp`-less than itself. -/
theorem memcmpLt_irrefl : ∀ d : LightParams, memcmpLt d d = false
  | [] => rfl
  | a :: as => by simp [memcmpLt, memcmpLt_irrefl as]

/-- `LightCompare`-equivalence is reflexive: bit-for-bit identical
descriptors always hit the same registry entry. -/
theorem keyEquiv_refl (d : LightParams) : keyEquiv d d = true := by
  simp [keyEquiv, memcmpLt_irrefl]

/-- The scan finds nothing exactly when the id is absent. -/
theorem findActiveIdx_eq_none {l : List Nat} {id : Nat} :
    findActiveIdx l id = none ↔ id ∉ l := by
  induction l with
  | nil => simp [findActiveIdx]
  | cons x xs ih =>
    by_cases hx : x = id
    · subst hx; simp [findActiveIdx]
    · simp [findActiveIdx, hx, Option.map_eq_none, ih, Ne.symm hx]

/-- A successful scan splits the list at the first occurrence of the id. -/
theorem findActiveIdx_eq_some :
    ∀ (l : List Nat) (id p : Nat), findActiveIdx l id = some p →
      ∃ X Y, l = X ++ id :: Y ∧ X.length = p ∧ id ∉ X
  | [], id, p, h => by simp [findActiveIdx] at h
  | x :: xs, id, p, h => by
    by_cases hx : x = id
    · subst hx
      simp [findActiveIdx] at h
      exact ⟨[], xs, by simp, by simp [← h], by simp⟩
    · rw [findActiveIdx, if_neg hx] at h
      cases hfa : findActiveIdx xs id with
      | none => rw [hfa] at h; simp at h
      | some q =>
        rw [hfa] at h
        simp at h
        obtain ⟨X, Y, hl, hX, hnX⟩ := findActiveIdx_eq_some xs id q hfa
        refine ⟨x :: X, Y, by simp [hl], by simp [hX, ← h], ?_⟩
        simp only [List.mem_cons, not_or]
        exact ⟨Ne.symm hx, hnX⟩

/-- `enableLight(uint8_t)` on a non-full set never touches the registry, the
free pool or the light-data slot, and either leaves the active ids unchanged
(id already present) or appends the id. -/
theorem enableLightId_spec (s : LightsState) (id : Nat)
    (hcnt : s.activeSet.count < MAX_ENABLED_LIGHTS)
    (hlen : s.activeSet.lights.length = 8) :
    (enableLightId s id).1.registry = s.registry
    ∧ (enableLightId s id).1.freeIds = s.freeIds
    ∧ (enableLightId s id).1.lightData = s.lightData
    ∧ activeIds (enableLightId s id).1.activeSet
        = (if id ∈ activeIds s.activeSet then activeIds s.activeSet
           else activeIds s.activeSet ++ [id])
    ∧ (enableLightId s id).2 = [] := by
  have hc8 : s.activeSet.count < s.activeSet.lights.length := by
    rw [hlen]; exact hcnt
  by_cases hmem : id ∈ activeIds s.activeSet
  · have hcont : (activeIds s.activeSet).contains id = true := by
      simpa using hmem
    simp [enableLightId, hcont, hmem]
  · have hcont : ¬((activeIds s.activeSet).contains id = true) := by
      simpa using hmem
    have hle : ¬ MAX_ENABLED_LIGHTS ≤ s.activeSet.count := not_le.mpr hcnt
    rw [if_neg hmem]
    simp only [enableLightId, if_neg hcont, if_neg hle]
    refine ⟨by trivial, by trivial, by trivial, ?_, by trivial⟩
    simp only [activeIds]
    exact listTake_set_concat s.activeSet.lights s.activeSet.count id hc8

/-- Characterization of `enableLight(descriptor)`: after the call, the
registry maps the descriptor to the returned id, and the active ids are
unchanged (id already active) or extended by the id. -/
theorem enableLightD_first (s : LightsState) (d : LightParams)
    (hcnt : s.activeSet.count < MAX_ENABLED_LIGHTS)
    (hlen : s.activeSet.lights.length = 8) :
    findRegistry (enableLightD s d).1.registry d = some (enableLightD s d).2.1
    ∧ activeIds (enableLightD s d).1.activeSet
        = (if (enableLightD s d).2.1 ∈ activeIds s.activeSet then activeIds s.activeSet
           else activeIds s.activeSet ++ [(enableLightD s d).2.1]) := by
  cases hreg : findRegistry s.registry d with
  | some id =>
    have hspec := enableLightId_spec s id hcnt hlen
    rcases he : enableLightId s id with ⟨s1, w⟩
    rw [he] at hspec
    have hd : enableLightD s d = (s1, id, w) := by
      simp only [enableLightD, hreg, he]
    rw [hd]
    exact ⟨by rw [hspec.1]; exact hreg, hspec.2.2.2.1⟩
  | none =>
    cases hfree : s.freeIds with
    | nil =>
      have hd0 : registerLight s d = (s, 255, ["Cannot register more lights; ignoring call."]) := by
        rw [registerLight, hfree]
      have hspec := enableLightId_spec { s with registry := (d, 255) :: s.registry } 255 hcnt hlen
      rcases he : enableLightId { s with registry := (d, 255) :: s.registry } 255 with ⟨s3, w2⟩
      rw [he] at hspec
      have hd : enableLightD s d = (s3, 255, ["Cannot register more lights; ignoring call."] ++ w2) := by
        simp only [enableLightD, hreg, hd0, he]
      rw [hd]
      constructor
      · rw [hspec.1]
        simp [findRegistry, keyEquiv_refl]
      · exact hspec.2.2.2.1
    | cons f rest =>
      have hd0 : registerLight s d
          = ({ s with freeIds := rest, lightData := setLightData s.lightData f d }, f, []) := by
        rw [registerLight, hfree]
      have hspec := enableLightId_spec
        { s with freeIds := rest, lightData := setLightData s.lightData f d,
                 registry := (d, f) :: s.registry } f hcnt hlen
      rcases he : enableLightId
        { s with freeIds := rest, lightData := setLightData s.lightData f d,
                 registry := (d, f) :: s.registry } f with ⟨s3, w2⟩
      rw [he] at hspec
      have hd : enableLightD s d = (s3, f, [] ++ w2) := by
        simp only [enableLightD, hreg, hd0, he]
      rw [hd]
      constructor
      · rw [hspec.1]
        simp [findRegistry, keyEquiv_refl]
      · exact hspec.2.2.2.1

/-- C5 (amended): calling `enableLight` twice with bit-for-bit identical
descriptors returns the same hardware id both times, and — provided the
duplicate-free active light set has a free slot before the first call
(count < MAX_ENABLED_LIGHTS) — the active light set afterwards contains that
id exactly once.  (When the set is already full and the id not yet active,
`enableLight(uint8_t)` warns and never inserts, so the set contains the id
zero times; see the counterexample below.) -/
theorem c5_enableLight_twice_same_id (s : LightsState) (d : LightParams)
    (hnd : (activeIds s.activeSet).Nodup)
    (hcnt : s.activeSet.count < MAX_ENABLED_LIGHTS)
    (hlen : s.activeSet.lights.length = 8) :
    (enableLightD (enableLightD s d).1 d).2.1 = (enableLightD s d).2.1
    ∧ (activeIds (enableLightD (enableLightD s d).1 d).1.activeSet).count
        (enableLightD s d).2.1 = 1 := by
  obtain ⟨hf1, ha1⟩ := enableLightD_first s d hcnt hlen
  set p := enableLightD s d with hp
  have hmem1 : p.2.1 ∈ activeIds p.1.activeSet := by
    rw [ha1]
    split
    · assumption
    · simp
  have hcont : (activeIds p.1.activeSet).contains p.2.1 = true := by simpa using hmem1
  have hen2 : enableLightId p.1 p.2.1 = (p.1, []) := by
    rw [enableLightId, if_pos hcont]
  have hd2 : enableLightD p.1 d = (p.1, p.2.1, []) := by
    simp only [enableLightD, hf1, hen2]
  rw [hd2]
  refine ⟨rfl, ?_⟩
  rw [ha1]
  split
  · exact List.count_eq_one_of_mem hnd (by assumption)
  · rename_i hnotmem
    rw [List.count_append]
    simp [List.count_eq_zero_of_not_mem hnotmem]

/-- C5 counterexample: from the reachable state with a full active light set
(eight ids enabled), calling `enableLight` twice with the fresh, bit-for-bit
identical descriptor [99] returns the same hardware id both times, yet the
active light set contains that id zero times — not exactly once — because
`enableLight(uint8_t)` warns and never inserts into a full set. -/
theorem c5_full_set_counterexample :
    fullLightsState.activeSet.count = 8
    ∧ (enableLightD (enableLightD fullLightsState [99]).1 [99]).2.1
        = (enableLightD fullLightsState [99]).2.1
    ∧ ¬((activeIds (enableLightD (enableLightD fullLightsState [99]).1 [99]).1.activeSet).count
          (enableLightD fullLightsState [99]).2.1 = 1)
    ∧ (activeIds (enableLightD (enableLightD fullLightsState [99]).1 [99]).1.activeSet).count
        (enableLightD fullLightsState [99]).2.1 = 0 := by
  decide

/-- Each registration on a nonempty pool consumes exactly one free id. -/
theorem registerAll_freeIds_length :
    ∀ (ds : List LightParams) (s : LightsState), ds.length ≤ s.freeIds.length →
      (registerAll ds s).freeIds.length = s.freeIds.length - ds.length
  | [], s, h => by simp [registerAll]
  | d :: ds, s, h => by
    cases hf : s.freeIds with
    | nil => rw [hf] at h; simp at h
    | cons f r =>
      have hstep : registerAll (d :: ds) s = registerAll ds (registerLight s d).1 := rfl
      have hreg : (registerLight s d).1.freeIds = r := by
        simp [registerLight, hf]
      have hlen : ds.length ≤ (registerLight s d).1.freeIds.length := by
        rw [hreg]
        have := h
        rw [hf] at this
        simpa using Nat.le_of_succ_le_succ this
      rw [hstep, registerAll_freeIds_length ds (registerLight s d).1 hlen, hreg]
      simp only [List.length_cons]
      omega

/-- C6: `registerLight` hands out the lowest id of the free pool (removing
exactly it, storing the descriptor, and warning about nothing); the pool
initially holds exactly the ids 0..254; and after any 255 registrations the
pool is exhausted, so the 256th registration warns and returns the sentinel
id 255 while leaving the whole state — including every stored descriptor —
untouched. -/
theorem c6_registerLight_pool_and_exhaustion :
    (∀ (s : LightsState) (d : LightParams), s.freeIds.Sorted (· ≤ ·) → s.freeIds ≠ [] →
      (registerLight s d).2.1 ∈ s.freeIds
      ∧ (∀ x ∈ s.freeIds, (registerLight s d).2.1 ≤ x)
      ∧ (registerLight s d).1.freeIds = s.freeIds.tail
      ∧ (registerLight s d).1.lightData = setLightData s.lightData (registerLight s d).2.1 d
      ∧ (registerLight s d).2.2 = [])
    ∧ (∀ x : Nat, x ∈ initFreeLightIds ↔ x < 255)
    ∧ (∀ ds : List LightParams, ds.length = 255 →
        (registerAll ds initLightsState).freeIds = []
        ∧ ∀ d, registerLight (registerAll ds initLightsState) d
            = (registerAll ds initLightsState, 255,
               ["Cannot register more lights; ignoring call."])) := by
  refine ⟨?_, ?_, ?_⟩
  · intro s d hs hne
    cases hf : s.freeIds with
    | nil => exact absurd hf hne
    | cons f r =>
      rw [hf] at hs
      obtain ⟨hmin, _⟩ := List.sorted_cons.mp hs
      have hd : registerLight s d
          = ({ s with freeIds := r, lightData := setLightData s.lightData f d }, f, []) := by
        rw [registerLight, hf]
      rw [hd]
      refine ⟨List.mem_cons_self f r, ?_, rfl, rfl, rfl⟩
      intro x hx
      rcases List.mem_cons.mp hx with hx | hx
      · exact hx ▸ le_refl f
      · exact hmin x hx
  · intro x
    simp [initFreeLightIds, List.mem_range]
  · intro ds hds
    have hlen0 : initLightsState.freeIds.length = 255 := by
      simp [initLightsState, initFreeLightIds]
    have h255 : ds.length ≤ initLightsState.freeIds.length := by rw [hds, hlen0]
    have hempty : (registerAll ds initLightsState).freeIds = [] := by
      have := registerAll_freeIds_length ds initLightsState h255
      rw [hds, hlen0] at this
      simpa using List.length_eq_zero.mp (by omega)
    refine ⟨hempty, fun d => ?_⟩
    rw [registerLight, hempty]

/-- Witness for C6: registering 255 one-byte descriptors exhausts the pool,
and the 256th registration is the sentinel no-op; the non-exhausted branch is
exercised on the fresh pool. -/
theorem c6_registerLight_pool_and_exhaustion_witness :
    ((registerAll ((List.range 255).map (fun i => [i])) initLightsState).freeIds = []
      ∧ ∀ d, registerLight (registerAll ((List.range 255).map (fun i => [i])) initLightsState) d
          = (registerAll ((List.range 255).map (fun i => [i])) initLightsState, 255,
             ["Cannot register more lights; ignoring call."]))
    ∧ (registerLight initLightsState [9]).2.1 ∈ initLightsState.freeIds :=
  ⟨c6_registerLight_pool_and_exhaustion.2.2 ((List.range 255).map (fun i => [i]))
      (by simp),
   (c6_registerLight_pool_and_exhaustion.1 initLightsState [9]
      (by show List.Sorted (· ≤ ·) (List.range 255); exact List.sorted_le_range 255)
      (by simp [initLightsState, initFreeLightIds])).1⟩

theorem c10_disableLight_absent_noop_present_swap (s : LightsState) (id : Nat) :
    (id ∉ activeIds s.activeSet → disableLight s id = (s, []))
    ∧ (id ∈ activeIds s.activeSet → (activeIds s.activeSet).Nodup →
        s.activeSet.count ≤ s.activeSet.lights.length →
        (disableLight s id).2 = []
        ∧ (disableLight s id).1.registry = s.registry
        ∧ (disableLight s id).1.freeIds = s.freeIds
        ∧ (disableLight s id).1.lightData = s.lightData
        ∧ (disableLight s id).1.activeSet.count = s.activeSet.count - 1
        ∧ (activeIds (disableLight s id).1.activeSet).Perm
            ((activeIds s.activeSet).erase id)
        ∧ id ∉ activeIds (disableLight s id).1.activeSet) := by
  constructor
  · intro habs
    have hnone : findActiveIdx (activeIds s.activeSet) id = none :=
      findActiveIdx_eq_none.mpr habs
    simp [disableLight, hnone]
  · intro hmem hnd hcnt
    obtain ⟨pos, hfs⟩ : ∃ p, findActiveIdx (activeIds s.activeSet) id = some p := by
      cases hfa : findActiveIdx (activeIds s.activeSet) id with
      | none => exact absurd (findActiveIdx_eq_none.mp hfa) (by simpa using hmem)
      | some p => exact ⟨p, rfl⟩
    obtain ⟨X, Y, hA, hX, hnX⟩ := findActiveIdx_eq_some _ id pos hfs
    have hAlen : (activeIds s.activeSet).length = s.activeSet.count := by
      simp only [activeIds, List.length_take]
      omega
    have hposc : pos + 1 + Y.length = s.activeSet.count := by
      rw [← hAlen, hA]
      simp [← hX]
      omega
    have hposlt : pos < s.activeSet.count := by omega
    have hposl : pos < s.activeSet.lights.length := by omega
    have ha : s.activeSet.lights.getD pos 0 = id := by
      rw [← listGetD_take s.activeSet.lights s.activeSet.count pos 0 hposlt]
      show (activeIds s.activeSet).getD pos 0 = id
      rw [hA, ← hX]
      exact listGetD_append_length X id Y 0
    have hd : disableLight s id
        = ({ s with activeSet :=
              { count := s.activeSet.count - 1,
                lights := (s.activeSet.lights.set pos
                    (s.activeSet.lights.getD (s.activeSet.count - 1) 0)).set
                  (s.activeSet.count - 1) (s.activeSet.lights.getD pos 0) } }, []) := by
      simp only [disableLight, hfs]
    rcases Y.eq_nil_or_concat with rfl | ⟨Z, w, rfl⟩
    · -- the found slot is the last active one: the swap is the identity
      have hpc : pos = s.activeSet.count - 1 := by
        simp at hposc
        omega
      have hb : s.activeSet.lights.getD (s.activeSet.count - 1) 0 = id := by
        rw [← hpc]; exact ha
      have hlights : (s.activeSet.lights.set pos
          (s.activeSet.lights.getD (s.activeSet.count - 1) 0)).set
            (s.activeSet.count - 1) (s.activeSet.lights.getD pos 0)
          = s.activeSet.lights := by
        rw [hb, ha, ← hpc, List.set_set]
        rw [← ha, listSet_getD_self _ _ _ hposl]
      have htk : s.activeSet.lights.take (s.activeSet.count - 1) = X := by
        have h1 : s.activeSet.lights.take (s.activeSet.count - 1)
            = (activeIds s.activeSet).take (s.activeSet.count - 1) := by
          simp only [activeIds, List.take_take]
          congr 1
          omega
        rw [h1, hA, ← hpc, ← hX]
        exact List.take_left X (id :: [])
      have her : (activeIds s.activeSet).erase id = X := by
        rw [hA, List.erase_append_right _ hnX, List.erase_cons_head]
        simp
      simp only [activeIds] at her
      rw [hd]
      refine ⟨rfl, rfl, rfl, rfl, rfl, ?_, ?_⟩
      · simp only [activeIds]
        rw [hlights, htk, her]
      · simp only [activeIds]
        rw [hlights, htk]
        exact hnX
    · -- the found slot is strictly before the last: the swap brings the
      -- last active id forward
      simp only [List.concat_eq_append] at hA hposc
      have hc2 : pos + 1 + Z.length + 1 = s.activeSet.count := by
        simp at hposc
        omega
      have hc1 : pos < s.activeSet.count - 1 := by omega
      have hcl : s.activeSet.count - 1 < s.activeSet.lights.length := by omega
      have hXZlen : (X ++ id :: Z).length = s.activeSet.count - 1 := by
        simp [← hX]
        omega
      have hassoc : activeIds s.activeSet = (X ++ id :: Z) ++ [w] := by
        rw [hA]
        simp
      have hb : s.activeSet.lights.getD (s.activeSet.count - 1) 0 = w := by
        rw [← listGetD_take s.activeSet.lights s.activeSet.count (s.activeSet.count - 1) 0
          (by omega)]
        show (activeIds s.activeSet).getD (s.activeSet.count - 1) 0 = w
        rw [hassoc, ← hXZlen]
        exact listGetD_append_length (X ++ id :: Z) w [] 0
      have htk : s.activeSet.lights.take (s.activeSet.count - 1) = X ++ id :: Z := by
        have h1 : s.activeSet.lights.take (s.activeSet.count - 1)
            = (activeIds s.activeSet).take (s.activeSet.count - 1) := by
          simp only [activeIds, List.take_take]
          congr 1
          omega
        rw [h1, hassoc, ← hXZlen]
        exact List.take_left (X ++ id :: Z) [w]
      have hlights : ((s.activeSet.lights.set pos
          (s.activeSet.lights.getD (s.activeSet.count - 1) 0)).set
            (s.activeSet.count - 1) (s.activeSet.lights.getD pos 0)).take
              (s.activeSet.count - 1)
          = X ++ w :: Z := by
        rw [hb, ha]
        rw [listTake_set_of_le _ _ _ _ (le_refl (s.activeSet.count - 1))]
        rw [listTake_set_lt _ _ _ _ hc1, htk, ← hX]
        exact listSet_append_length X id Z w
      have hidZ : id ∉ Z ∧ id ≠ w := by
        rw [hA] at hnd
        have h2 := (List.nodup_cons.mp (List.Nodup.of_append_right hnd)).1
        simp only [List.mem_append, List.mem_singleton, not_or] at h2
        exact h2
      have her : (activeIds s.activeSet).erase id = X ++ (Z ++ [w]) := by
        rw [hA, List.erase_append_right _ hnX, List.erase_cons_head]
      simp only [activeIds] at her
      rw [hd]
      refine ⟨rfl, rfl, rfl, rfl, rfl, ?_, ?_⟩
      · simp only [activeIds]
        rw [hlights, her]
        exact List.Perm.append_left X (List.perm_append_singleton w Z).symm
      · simp only [activeIds]
        rw [hlights]
        simp only [List.mem_append, List.mem_cons, not_or]
        exact ⟨hnX, Ne.symm (Ne.symm hidZ.2), hidZ.1⟩

/-- Witness for C10: disabling an inactive id (42) at the fresh context, and
disabling an active id at a small populated set. -/
theorem c10_disableLight_absent_noop_present_swap_witness :
    disableLight initLightsState 42 = (initLightsState, [])
    ∧ (disableLight { initLightsState with
          activeSet := { count := 2, lights := [7, 9, 0, 0, 0, 0, 0, 0] } } 7).1.activeSet.count
        = 1 :=
  ⟨(c10_disableLight_absent_noop_present_swap initLightsState 42).1 (by decide),
   ((c10_disableLight_absent_noop_present_swap { initLightsState with
        activeSet := { count := 2, lights := [7, 9, 0, 0, 0, 0, 0, 0] } } 7).2
      (by decide) (by decide) (by decide)).2.2.2.2.1⟩



/-- Witness for C5 at the freshly constructed context. -/
theorem c5_enableLight_twice_same_id_witness :
    (enableLightD (enableLightD initLightsState dWitness).1 dWitness).2.1
      = (enableLightD initLightsState dWitness).2.1
    ∧ (activeIds (enableLightD (enableLightD initLightsState dWitness).1 dWitness).1.activeSet).count
        (enableLightD initLightsState dWitness).2.1 = 1 :=
  c5_enableLight_twice_same_id initLightsState dWitness (by decide) (by decide) (by decide)

end Lights

namespace MeshRes

/-- C7: after `prepare`, a mesh whose vertex data has `vertexCount == 0`
never reports `isUploaded() == true` — any leftover device buffer from a
previous upload is destroyed by `prepare`, whatever the policy flags and
device behavior. -/
theorem c7_prepare_empty_vertex_data_not_uploaded
    (f : Flags) (devOkIdx devOkVtx : Bool) (m : MeshGeom) (h : m.vd.count = 0) :
    isUploaded (prepare f devOkIdx devOkVtx m).vd = false := by
  rcases m with ⟨⟨ds, c, bv, ch⟩, idx⟩
  cases h
  cases bv <;> simp [prepare, prepareGeom, removeGlBuffer, isUploaded, releaseLocalData]

/-- Witness for C7: a previously uploaded, then cleared, vertex record. -/
theorem c7_prepare_empty_vertex_data_not_uploaded_witness :
    isUploaded (prepare ⟨false, true, false, false⟩ true true
      ⟨⟨0, 0, true, false⟩, ⟨0, 0, false, false⟩⟩).vd = false :=
  c7_prepare_empty_vertex_data_not_uploaded ⟨false, true, false, false⟩ true true
    ⟨⟨0, 0, true, false⟩, ⟨0, 0, false, false⟩⟩ rfl

end MeshRes

namespace Draw

/-- C2: `drawArrays`, `drawElements`, `flush` and `finish` each run
`applyChanges` to completion as their first step, before the device draw /
flush / finish call is issued (the completed-apply event is the head of every
emitted trace and precedes the draw event); and each draw call appends
exactly one object-data record to the parameter cache, keeping the slot
cursor within capacity. -/
theorem c2_apply_before_draw_and_one_record
    (s : DrawState) (mode first count typ : Nat)
    (hcur : s.objSlot.cursor < MAX_OBJECTDATA)
    (hcap : s.objSlot.capacity = MAX_OBJECTDATA) :
    ((drawArrays mode first count s).2.take 2
        = [Event.applyCompleted, Event.glDrawArrays mode first count]
      ∧ (drawArrays mode first count s).1.objSlot.appended
          = s.objSlot.appended ++ [s.activeObjectData]
      ∧ (drawArrays mode first count s).1.objSlot.cursor < MAX_OBJECTDATA)
    ∧ ((drawElements mode typ first count s).2.take 2
        = [Event.applyCompleted, Event.glDrawElements mode typ first count]
      ∧ (drawElements mode typ first count s).1.objSlot.appended
          = s.objSlot.appended ++ [s.activeObjectData]
      ∧ (drawElements mode typ first count s).1.objSlot.cursor < MAX_OBJECTDATA)
    ∧ (flush s).2 = [Event.applyCompleted, Event.glFlushCall]
    ∧ (finish s).2 = [Event.applyCompleted, Event.glFinishCall] := by
  have hc : s.objSlot.cursor < s.objSlot.capacity := by rw [hcap]; exact hcur
  refine ⟨⟨?_, ?_, ?_⟩, ⟨?_, ?_, ?_⟩, rfl, rfl⟩ <;>
    simp only [drawArrays, drawElements, applyChangesEv, addParameter, if_pos hc,
      swapSlot, List.nil_append, List.cons_append] <;>
    split <;>
    simp_all [MAX_OBJECTDATA] <;>
    omega

/-- Witness for C2 at a fresh object-data slot. -/
theorem c2_apply_before_draw_and_one_record_witness :
    (drawArrays 4 0 3 ⟨⟨512, 0, 0, []⟩, 77⟩).2.take 2
      = [Event.applyCompleted, Event.glDrawArrays 4 0 3] :=
  (c2_apply_before_draw_and_one_record ⟨⟨512, 0, 0, []⟩, 77⟩ 4 0 3 5
    (by decide) rfl).1.1

end Draw

namespace ApplyEngine

/-- C8: `applyChanges` never propagates a failure from a nested device
operation: for every device behavior it returns normally (never an
`Except.error`); when some nested step fails it returns the partial state the
body reached together with the logged warning, and when nothing fails it
returns the fully applied state with no warning. -/
theorem c8_applyChanges_catches_all_failures :
    (∀ (d : Device) (g : Nat), ∃ p, applyChanges d g = .ok p)
    ∧ (∀ (d : Device) (g : Nat) (e : String), (runApplyBody d g).2 = some e →
        applyChanges d g = .ok ((runApplyBody d g).1, [applyWarnMsg e]))
    ∧ (∀ (d : Device) (g : Nat), (runApplyBody d g).2 = none →
        applyChanges d g = .ok ((runApplyBody d g).1, [])) := by
  refine ⟨fun d g => ?_, fun d g e he => ?_, fun d g hn => ?_⟩
  · unfold applyChanges
    rcases runApplyBody d g with ⟨g2, e?⟩
    cases e? <;> exact ⟨_, rfl⟩
  · unfold applyChanges
    rcases hr : runApplyBody d g with ⟨g2, e?⟩
    rw [hr] at he
    cases e? with
    | none => simp at he
    | some e0 => simp at he; subst he; rfl
  · unfold applyChanges
    rcases hr : runApplyBody d g with ⟨g2, e?⟩
    rw [hr] at hn
    cases e? with
    | none => rfl
    | some e0 => simp at hn

/-- Witness for C8 at a device whose material-data write throws: the call
returns normally with the partial state (the two completed steps) and the
downgraded warning. -/
theorem c8_applyChanges_catches_all_failures_witness :
    applyChanges devBoom 0 = .ok (2, [applyWarnMsg "boom"]) :=
  c8_applyChanges_catches_all_failures.2.1 devBoom 0 "boom" rfl

end ApplyEngine

section ListHelpers2

/-- `getD` distributes over `zipWith` at in-range indices. -/
theorem listGetD_zipWith {α : Type} (f : α → α → α) :
    ∀ (a b : List α) (i : Nat) (d : α), i < a.length → i < b.length →
      (List.zipWith f a b).getD i d = f (a.getD i d) (b.getD i d)
  | [], b, i, d, ha, hb => by simp at ha
  | a :: as, [], i, d, ha, hb => by simp at hb
  | a :: as, b :: bs, 0, d, ha, hb => by simp
  | a :: as, b :: bs, i + 1, d, ha, hb => by
    simp only [List.zipWith_cons_cons, List.getD_cons_succ]
    exact listGetD_zipWith f as bs i d (by simpa using ha) (by simpa using hb)

end ListHelpers2

namespace BBox

/-- The `fltMax` literal is exactly 2^128 - 2^104, the largest finite
single-precision float. -/
theorem fltMax_eq_pow : fltMax = 2 ^ 128 - 2 ^ 104 := by norm_num [fltMax]

/-- The loop's minimum update is the binary minimum. -/
theorem updMin_eq_min (acc x : ℚ) : updMin acc x = min acc x := by
  unfold updMin
  split
  · exact (min_eq_right (le_of_lt (by assumption))).symm
  · exact (min_eq_left (le_of_not_lt (by assumption))).symm

/-- The loop's maximum update is the binary maximum. -/
theorem updMax_eq_max (acc x : ℚ) : updMax acc x = max acc x := by
  unfold updMax
  split
  · exact (max_eq_right (le_of_lt (by assumption))).symm
  · exact (max_eq_left (le_of_not_lt (by assumption))).symm

/-- A `min`-fold lands on its seed or one of the list elements. -/
theorem foldl_min_mem (l : List ℚ) : ∀ s : ℚ, l.foldl min s ∈ s :: l := by
  induction l with
  | nil => intro s; simp
  | cons a l ih =>
    intro s
    show List.foldl min (min s a) l ∈ s :: a :: l
    rcases List.mem_cons.mp (ih (min s a)) with h | h
    · rw [h]
      rcases min_choice s a with hc | hc <;> rw [hc] <;> simp
    · exact List.mem_cons_of_mem _ (List.mem_cons_of_mem _ h)

/-- A `min`-fold is a lower bound of its seed and all list elements. -/
theorem foldl_min_le (l : List ℚ) : ∀ s x, x ∈ s :: l → l.foldl min s ≤ x := by
  induction l with
  | nil =>
    intro s x hx
    simp at hx
    simp [hx]
  | cons a l ih =>
    intro s x hx
    show List.foldl min (min s a) l ≤ x
    have hbase : List.foldl min (min s a) l ≤ min s a :=
      ih (min s a) (min s a) (List.mem_cons_self _ _)
    rcases List.mem_cons.mp hx with hxe | hx2
    · rw [hxe]
      exact le_trans hbase (min_le_left s a)
    rcases List.mem_cons.mp hx2 with hxe | hx3
    · rw [hxe]
      exact le_trans hbase (min_le_right s a)
    · exact ih (min s a) x (List.mem_cons_of_mem _ hx3)

/-- A `max`-fold lands on its seed or one of the list elements. -/
theorem foldl_max_mem (l : List ℚ) : ∀ s : ℚ, l.foldl max s ∈ s :: l := by
  induction l with
  | nil => intro s; simp
  | cons a l ih =>
    intro s
    show List.foldl max (max s a) l ∈ s :: a :: l
    rcases List.mem_cons.mp (ih (max s a)) with h | h
    · rw [h]
      rcases max_choice s a with hc | hc <;> rw [hc] <;> simp
    · exact List.mem_cons_of_mem _ (List.mem_cons_of_mem _ h)

/-- A `max`-fold is an upper bound of its seed and all list elements. -/
theorem le_foldl_max (l : List ℚ) : ∀ s x, x ∈ s :: l → x ≤ l.foldl max s := by
  induction l with
  | nil =>
    intro s x hx
    simp at hx
    simp [hx]
  | cons a l ih =>
    intro s x hx
    show x ≤ List.foldl max (max s a) l
    have hbase : max s a ≤ List.foldl max (max s a) l :=
      ih (max s a) (max s a) (List.mem_cons_self _ _)
    rcases List.mem_cons.mp hx with hxe | hx2
    · rw [hxe]
      exact le_trans (le_max_left s a) hbase
    rcases List.mem_cons.mp hx2 with hxe | hx3
    · rw [hxe]
      exact le_trans (le_max_right s a) hbase
    · exact ih (max s a) x (List.mem_cons_of_mem _ hx3)

/-- The loop's running minimum, seeded with `FLT_MAX`, is the true minimum of
a nonempty list of values that never exceed `FLT_MAX`. -/
theorem foldl_updMin_spec (xs : List ℚ) (hne : xs ≠ [])
    (hb : ∀ x ∈ xs, x ≤ fltMax) : isMin (xs.foldl updMin fltMax) xs := by
  have heq : ∀ (l : List ℚ) (s : ℚ), l.foldl updMin s = l.foldl min s := by
    intro l
    induction l with
    | nil => intro s; rfl
    | cons a l ih => intro s; simp only [List.foldl_cons, updMin_eq_min, ih]
  rw [heq]
  constructor
  · rcases List.mem_cons.mp (foldl_min_mem xs fltMax) with h | h
    · rcases List.exists_mem_of_ne_nil xs hne with ⟨y, hy⟩
      have h1 : xs.foldl min fltMax ≤ y := foldl_min_le xs fltMax y (List.mem_cons_of_mem _ hy)
      have h2 : y ≤ fltMax := hb y hy
      have h3 : y = xs.foldl min fltMax := le_antisymm (by rw [h]; exact h2) h1
      exact h3 ▸ hy
    · exact h
  · intro x hx
    exact foldl_min_le xs fltMax x (List.mem_cons_of_mem _ hx)

/-- The loop's running maximum, seeded with `FLT_LOWEST`, is the true maximum
of a nonempty list of values never below `FLT_LOWEST`. -/
theorem foldl_updMax_spec (xs : List ℚ) (hne : xs ≠ [])
    (hb : ∀ x ∈ xs, fltLowest ≤ x) : isMax (xs.foldl updMax fltLowest) xs := by
  have heq : ∀ (l : List ℚ) (s : ℚ), l.foldl updMax s = l.foldl max s := by
    intro l
    induction l with
    | nil => intro s; rfl
    | cons a l ih => intro s; simp only [List.foldl_cons, updMax_eq_max, ih]
  rw [heq]
  constructor
  · rcases List.mem_cons.mp (foldl_max_mem xs fltLowest) with h | h
    · rcases List.exists_mem_of_ne_nil xs hne with ⟨y, hy⟩
      have h1 : y ≤ xs.foldl max fltLowest := le_foldl_max xs fltLowest y (List.mem_cons_of_mem _ hy)
      have h2 : fltLowest ≤ y := hb y hy
      have h3 : y = xs.foldl max fltLowest := le_antisymm h1 (by rw [h]; exact h2)
      exact h3 ▸ hy
    · exact h
  · intro x hx
    exact le_foldl_max xs fltLowest x (List.mem_cons_of_mem _ hx)

/-- The simultaneous per-dimension loop computes, in each dimension, the fold
of the update function over that dimension's column. -/
theorem minMaxFold_getD :
    ∀ (verts : List (List ℚ)) (mins maxs : List ℚ) (i : Nat),
      i < mins.length → i < maxs.length →
      (∀ v ∈ verts, mins.length ≤ v.length) → (∀ v ∈ verts, maxs.length ≤ v.length) →
      (minMaxFold verts (mins, maxs)).1.getD i 0
          = (col i verts).foldl updMin (mins.getD i 0)
        ∧ (minMaxFold verts (mins, maxs)).2.getD i 0
          = (col i verts).foldl updMax (maxs.getD i 0)
  | [], mins, maxs, i, hi1, hi2, hv1, hv2 => by simp [minMaxFold, col]
  | v :: vs, mins, maxs, i, hi1, hi2, hv1, hv2 => by
    have hvm : mins.length ≤ v.length := hv1 v (List.mem_cons_self _ _)
    have hvx : maxs.length ≤ v.length := hv2 v (List.mem_cons_self _ _)
    have hl1 : (List.zipWith updMin mins v).length = mins.length := by
      simp [List.length_zipWith]
      omega
    have hl2 : (List.zipWith updMax maxs v).length = maxs.length := by
      simp [List.length_zipWith]
      omega
    have ih := minMaxFold_getD vs (List.zipWith updMin mins v) (List.zipWith updMax maxs v) i
      (by rw [hl1]; exact hi1) (by rw [hl2]; exact hi2)
      (fun w hw => by rw [hl1]; exact hv1 w (List.mem_cons_of_mem _ hw))
      (fun w hw => by rw [hl2]; exact hv2 w (List.mem_cons_of_mem _ hw))
    have hz1 : (List.zipWith updMin mins v).getD i 0
        = updMin (mins.getD i 0) (v.getD i 0) :=
      listGetD_zipWith updMin mins v i 0 hi1 (by omega)
    have hz2 : (List.zipWith updMax maxs v).getD i 0
        = updMax (maxs.getD i 0) (v.getD i 0) :=
      listGetD_zipWith updMax maxs v i 0 hi2 (by omega)
    refine ⟨?_, ?_⟩
    · show (minMaxFold vs (List.zipWith updMin mins v, List.zipWith updMax maxs v)).1.getD i 0 = _
      rw [ih.1, hz1]
      rfl
    · show (minMaxFold vs (List.zipWith updMin mins v, List.zipWith updMax maxs v)).2.getD i 0 = _
      rw [ih.2, hz2]
      rfl

/-- C9: on the spec's concrete 3-vertex mesh, `updateBoundingBox` produces
the box spanning x in [0,1], y in [0,1], z in [0,0]; and in general, for
3-component positions with finite float values, it sets the box to the
per-dimension minima and maxima of the position attribute over all
vertices. -/
theorem c9_updateBoundingBox_minmax :
    (updateBoundingBox exampleMesh).1.bb = ⟨0, 1, 0, 1, 0, 0⟩
    ∧ ∀ (m : MeshVD), m.numValues = 3 → m.verts ≠ [] →
        (∀ v ∈ m.verts, v.length = 3) →
        (∀ v ∈ m.verts, ∀ x ∈ v, fltLowest ≤ x ∧ x ≤ fltMax) →
        (isMin (updateBoundingBox m).1.bb.minX (col 0 m.verts)
          ∧ isMax (updateBoundingBox m).1.bb.maxX (col 0 m.verts))
        ∧ (isMin (updateBoundingBox m).1.bb.minY (col 1 m.verts)
          ∧ isMax (updateBoundingBox m).1.bb.maxY (col 1 m.verts))
        ∧ (isMin (updateBoundingBox m).1.bb.minZ (col 2 m.verts)
          ∧ isMax (updateBoundingBox m).1.bb.maxZ (col 2 m.verts)) := by
  constructor
  · decide
  · intro m hnum hne hlen hbound
    have h0 : ¬(m.verts.length = 0) := by
      simpa [List.length_eq_zero] using hne
    have hbb : (updateBoundingBox m).1.bb
        = ⟨(minMaxFold m.verts (List.replicate 3 fltMax, List.replicate 3 fltLowest)).1.getD 0 0,
           (minMaxFold m.verts (List.replicate 3 fltMax, List.replicate 3 fltLowest)).2.getD 0 0,
           (minMaxFold m.verts (List.replicate 3 fltMax, List.replicate 3 fltLowest)).1.getD 1 0,
           (minMaxFold m.verts (List.replicate 3 fltMax, List.replicate 3 fltLowest)).2.getD 1 0,
           (minMaxFold m.verts (List.replicate 3 fltMax, List.replicate 3 fltLowest)).1.getD 2 0,
           (minMaxFold m.verts (List.replicate 3 fltMax, List.replicate 3 fltLowest)).2.getD 2 0⟩ := by
      rw [updateBoundingBox, if_neg h0, hnum]
      norm_num
    have hmm : ∀ i : Nat, i < 3 →
        (minMaxFold m.verts (List.replicate 3 fltMax, List.replicate 3 fltLowest)).1.getD i 0
            = (col i m.verts).foldl updMin ((List.replicate 3 fltMax).getD i 0)
          ∧ (minMaxFold m.verts (List.replicate 3 fltMax, List.replicate 3 fltLowest)).2.getD i 0
            = (col i m.verts).foldl updMax ((List.replicate 3 fltLowest).getD i 0) := by
      intro i hi
      exact minMaxFold_getD m.verts (List.replicate 3 fltMax) (List.replicate 3 fltLowest) i
        (by simpa using hi) (by simpa using hi)
        (fun v hv => by simp [hlen v hv]) (fun v hv => by simp [hlen v hv])
    have hcne : ∀ i : Nat, col i m.verts ≠ [] := by
      intro i
      simp [col, hne]
    have hup : ∀ i : Nat, i < 3 → ∀ x ∈ col i m.verts, x ≤ fltMax := by
      intro i hi x hx
      simp only [col, List.mem_map] at hx
      obtain ⟨v, hv, rfl⟩ := hx
      have hiv : i < v.length := by rw [hlen v hv]; exact hi
      have hmv : v.getD i 0 ∈ v := by
        rw [List.getD_eq_getElem v 0 hiv]
        exact List.getElem_mem hiv
      exact (hbound v hv _ hmv).2
    have hlo : ∀ i : Nat, i < 3 → ∀ x ∈ col i m.verts, fltLowest ≤ x := by
      intro i hi x hx
      simp only [col, List.mem_map] at hx
      obtain ⟨v, hv, rfl⟩ := hx
      have hiv : i < v.length := by rw [hlen v hv]; exact hi
      have hmv : v.getD i 0 ∈ v := by
        rw [List.getD_eq_getElem v 0 hiv]
        exact List.getElem_mem hiv
      exact (hbound v hv _ hmv).1
    rw [hbb]
    refine ⟨⟨?_, ?_⟩, ⟨?_, ?_⟩, ⟨?_, ?_⟩⟩
    · show isMin ((minMaxFold _ _).1.getD 0 0) _
      rw [(hmm 0 (by omega)).1]
      exact foldl_updMin_spec _ (hcne 0) (hup 0 (by omega))
    · show isMax ((minMaxFold _ _).2.getD 0 0) _
      rw [(hmm 0 (by omega)).2]
      exact foldl_updMax_spec _ (hcne 0) (hlo 0 (by omega))
    · show isMin ((minMaxFold _ _).1.getD 1 0) _
      rw [(hmm 1 (by omega)).1]
      exact foldl_updMin_spec _ (hcne 1) (hup 1 (by omega))
    · show isMax ((minMaxFold _ _).2.getD 1 0) _
      rw [(hmm 1 (by omega)).2]
      exact foldl_updMax_spec _ (hcne 1) (hlo 1 (by omega))
    · show isMin ((minMaxFold _ _).1.getD 2 0) _
      rw [(hmm 2 (by omega)).1]
      exact foldl_updMin_spec _ (hcne 2) (hup 2 (by omega))
    · show isMax ((minMaxFold _ _).2.getD 2 0) _
      rw [(hmm 2 (by omega)).2]
      exact foldl_updMax_spec _ (hcne 2) (hlo 2 (by omega))

/-- Witness for C9's general statement at the example mesh. -/
theorem c9_updateBoundingBox_minmax_witness :
    isMin (updateBoundingBox exampleMesh).1.bb.minX (col 0 exampleMesh.verts)
    ∧ isMax (updateBoundingBox exampleMesh).1.bb.maxX (col 0 exampleMesh.verts) :=
  (c9_updateBoundingBox_minmax.2 exampleMesh rfl (by decide) (by decide) (by decide)).1

end BBox

end Spec2Proof
